import Mathlib

/-!
# goweb-platform: a shallow embedding of the server lifecycle, the configuration
loader, the backend connectors and the logger

Source files embedded here: `server/api.go`, `config.go`, `redis/redis.go`,
`mysql/mysql.go`, `mongo/mongo.go`, `logger/log.go`.

Conventions.
* Go pointers to a process-wide object become an `Option` slot (`none` is `nil`).
* Registered callbacks (Go closures) are named by a `HookId`; what a closure does
  when it is called is given by an environment `Hooks`, so that the server
  structure stays first order.  A call of a closure either returns or panics, and
  it may leave the server in any state.  A registry field holds the elements seen
  through the slice; a `range` loop fixes the number of its turns when it starts
  and reads the element of each turn from the array behind the slice when the turn
  comes, so a closure can also overwrite the slots a running loop has still to read.
* Every operation records what it did in a trace of `Event`s, in program order.
* Calls into third-party libraries (gin, net/http, viper, gorm, go-redis, mgo,
  the file system) whose result the code branches on are parameters.
-/

namespace Server

/-- The constant `shutdownMaxAge` of api.go (15 seconds), in milliseconds. -/
def shutdownMaxAge : Nat := 15 * 1000

/-- The constant `shutdownWait` of api.go (1000 milliseconds). -/
def shutdownWait : Nat := 1000

/-- A registered callback is referred to by an identifier. -/
abbrev HookId := Nat

/-- The part of `gin.Engine` the lifecycle code touches: the handlers installed so far. -/
structure GinEngine where
  handlers : List String
deriving DecidableEq, Repr

/-- The fields of `http.Server` that `ListenAndServe` fills in (durations in seconds). -/
structure HTTPServer where
  Handler : Option GinEngine
  Addr : String
  ReadTimeout : Nat
  WriteTimeout : Nat
  MaxHeaderBytes : Nat
deriving DecidableEq, Repr

/-- The Go type `chan struct{}`; the code only ever creates it. -/
structure Chan where
  closed : Bool
deriving DecidableEq, Repr

/-- The struct `ApiServer` of api.go.  The mutex `mu` has no content in a sequential
model and is left out; the four registries hold callback identifiers. -/
structure ApiServer where
  Engine : Option GinEngine
  HttpServer : Option HTTPServer
  Addr : String
  doneChan : Option Chan
  Routers : List HookId
  Middlewares : List HookId
  Shutdowns : List HookId
  Services : List HookId
deriving DecidableEq, Repr

/-- What a call of a registered closure does: the server it leaves behind, the slots of
the slice being walked that are still to be read as the call leaves them (a closure can
write into the array behind the slice), and whether the call panicked instead of
returning.  The Go types `func(*ApiServer)` and `func(*gin.Engine)` have no result value,
so returning and panicking are the only two outcomes. -/
structure SrvOutcome where
  srv : ApiServer
  slots : List HookId
  panics : Bool

/-- The behaviour of a closure, given the server and the slots still to be read when it is
called. -/
abbrev Behaviour := HookId → ApiServer → List HookId → SrvOutcome

/-- The closures behind the identifiers: `srv` for `func(*ApiServer)` values (Services,
Shutdowns), `eng` for `func(*gin.Engine)` values (Middlewares, Routers).  A closure of the
second kind is handed `srv.Engine`, but as a closure it may have captured the server, so
its effect is an effect on the server too. -/
structure Hooks where
  srv : Behaviour
  eng : Behaviour

/-- Observable steps, in program order. -/
inductive Event where
  | shutdownHook (h : HookId)
  | graceWait (ms : Nat)
  | httpShutdown
  | service (h : HookId)
  | middleware (h : HookId)
  | router (h : HookId)
  | logInfo (msg : String)
  | httpListen (addr : String)
deriving DecidableEq, Repr

/-- Why a run stopped by a Go panic. -/
inductive Panic where
  | hook (h : HookId)
  | nilHttpServer
  | nilLogger
deriving DecidableEq, Repr

/-- The result of running a piece of the lifecycle: the server afterwards, the steps
taken, and the panic that ended the run, if any. -/
structure Run where
  srv : ApiServer
  trace : List Event
  panicked : Option Panic

/-- The method `getDoneChanLocked`: creates the channel on first use. -/
def getDoneChanLocked (srv : ApiServer) : Chan × ApiServer :=
  match srv.doneChan with
  | none => (⟨false⟩, { srv with doneChan := some ⟨false⟩ })
  | some c => (c, srv)

/-- The method `getDoneChan` (lock, delegate, unlock). -/
def getDoneChan (srv : ApiServer) : Chan × ApiServer :=
  getDoneChanLocked srv

/-- Writing into the slots still to be read: the array has as many slots as before, and
each is what the call left in it. -/
def overwrite : List HookId → List HookId → List HookId
  | [], _ => []
  | x :: xs, [] => x :: xs
  | _ :: xs, y :: ys => y :: overwrite xs ys

/-- A loop `for _, f := range fs { f(...) }` with `n` turns left over the slots `fs` still
to be read.  The number of turns was fixed when the range expression was evaluated; each
turn reads the next slot as it is then, calls the closure on the server left by the
previous call, and a panicking call ends the run. -/
def runHooks (f : Behaviour) (ev : HookId → Event) :
    Nat → List HookId → ApiServer → List Event → Run
  | 0, _, srv, tr => ⟨srv, tr, none⟩
  | _ + 1, [], srv, tr => ⟨srv, tr, none⟩
  | n + 1, h :: rest, srv, tr =>
    let o := f h srv rest
    if o.panics then ⟨o.srv, tr ++ [ev h], some (Panic.hook h)⟩
    else runHooks f ev n (overwrite rest o.slots) o.srv (tr ++ [ev h])

/-- The loop `for _, f := range fs { f(srv) }` over a slice of `func(*ApiServer)`: the
range expression `fs` is evaluated once, which fixes the number of turns. -/
def runSrvHooks (H : Hooks) (ev : HookId → Event) (fs : List HookId) (srv : ApiServer)
    (tr : List Event) : Run :=
  runHooks H.srv ev fs.length fs srv tr

/-- The loop `for _, f := range fs { f(srv.Engine) }` over a slice of
`func(*gin.Engine)`. -/
def runEngHooks (H : Hooks) (ev : HookId → Event) (fs : List HookId) (srv : ApiServer)
    (tr : List Event) : Run :=
  runHooks H.eng ev fs.length fs srv tr

/-- The method `Shutdown` of api.go: the shutdown hooks, then the wait of `shutdownWait`,
then the call `srv.HttpServer.Shutdown(ctx)`, which dereferences `HttpServer`. -/
def Shutdown (H : Hooks) (srv : ApiServer) : Run :=
  let r : Run :=
    if srv.Shutdowns.length > 0 then runSrvHooks H Event.shutdownHook srv.Shutdowns srv []
    else ⟨srv, [], none⟩
  match r.panicked with
  | some p => ⟨r.srv, r.trace, some p⟩
  | none =>
    let tr := r.trace ++ [Event.graceWait shutdownWait]
    match r.srv.HttpServer with
    | none => ⟨r.srv, tr ++ [Event.httpShutdown], some Panic.nilHttpServer⟩
    | some _ => ⟨r.srv, tr ++ [Event.httpShutdown], none⟩

/-- Calling `Shutdown` again and again on the server the previous call left, stopping at
the first call that panics; the traces are concatenated. -/
def shutdownTimes (H : Hooks) : Nat → ApiServer → Run
  | 0, srv => ⟨srv, [], none⟩
  | n + 1, srv =>
    let r := Shutdown H srv
    match r.panicked with
    | some p => ⟨r.srv, r.trace, some p⟩
    | none =>
      let r2 := shutdownTimes H n r.srv
      ⟨r2.srv, r.trace ++ r2.trace, r2.panicked⟩

/-- The method `RegisterShutdown`. -/
def RegisterShutdown (srv : ApiServer) (handlers : List HookId) : ApiServer :=
  { srv with Shutdowns := srv.Shutdowns ++ handlers }

/-- The method `RegisterService`. -/
def RegisterService (srv : ApiServer) (handlers : List HookId) : ApiServer :=
  { srv with Services := srv.Services ++ handlers }

/-- The method `RegisterMiddleware`. -/
def RegisterMiddleware (srv : ApiServer) (middlewares : List HookId) : ApiServer :=
  { srv with Middlewares := srv.Middlewares ++ middlewares }

/-- The method `RegisterRouters`. -/
def RegisterRouters (srv : ApiServer) (routers : List HookId) : ApiServer :=
  { srv with Routers := srv.Routers ++ routers }

/-- How `http.Server.ListenAndServe` ends: it always returns a non-nil error, which is
either `http.ErrServerClosed` or something else. -/
inductive ListenResult where
  | serverClosed
  | failed (msg : String)
deriving DecidableEq, Repr

/-- What `ListenAndServe` of api.go depends on outside the server value: whether the
process-wide logger has been created, and how the listener ends. -/
structure ServeEnv where
  loggerSet : Bool
  listen : HTTPServer → ListenResult

/-- The result of `ListenAndServe`: the run and the returned error (`none` is `nil`). -/
structure Served where
  run : Run
  err : Option String

/-- The engine `ListenAndServe` starts from: `gin.New()` with the recovery and the CORS
handlers installed (both handler constructors are methods defined outside the embedded
files; only their installation order matters here). -/
def newEngine : GinEngine := ⟨["apiRecoveryMiddleware", "cors"]⟩

/-- The `http.Server` value built by `ListenAndServe`. -/
def mkHttpServer (srv : ApiServer) : HTTPServer :=
  { Handler := srv.Engine, Addr := srv.Addr, ReadTimeout := 20, WriteTimeout := 20,
    MaxHeaderBytes := 2 ^ 20 }

/-- The method `ListenAndServe` of api.go. -/
def ListenAndServe (H : Hooks) (E : ServeEnv) (srv : ApiServer) : Served :=
  let srv0 := { srv with Engine := some newEngine }
  let r1 := runSrvHooks H Event.service srv0.Services srv0 []
  match r1.panicked with
  | some p => ⟨⟨r1.srv, r1.trace, some p⟩, none⟩
  | none =>
    let r2 := runEngHooks H Event.middleware r1.srv.Middlewares r1.srv r1.trace
    match r2.panicked with
    | some p => ⟨⟨r2.srv, r2.trace, some p⟩, none⟩
    | none =>
      let r3 := runEngHooks H Event.router r2.srv.Routers r2.srv r2.trace
      match r3.panicked with
      | some p => ⟨⟨r3.srv, r3.trace, some p⟩, none⟩
      | none =>
        let srv4 := { r3.srv with HttpServer := some (mkHttpServer r3.srv) }
        if E.loggerSet then
          let tr := r3.trace ++ [Event.logInfo ("api-server port run on " ++ srv4.Addr ++ " "),
                                 Event.httpListen srv4.Addr]
          match E.listen (mkHttpServer r3.srv) with
          | ListenResult.serverClosed => ⟨⟨srv4, tr, none⟩, none⟩
          | ListenResult.failed msg => ⟨⟨srv4, tr, none⟩, some msg⟩
        else ⟨⟨srv4, r3.trace, some Panic.nilLogger⟩, none⟩

end Server

namespace Platform

/-- The constants of config.go. -/
def extensionJson : String := ".json"

/-- The constant `extensionYaml`. -/
def extensionYaml : String := ".yaml"

/-- The constant `extensionInI`. -/
def extensionInI : String := ".ini"

/-- The constant `nameSpace`. -/
def nameSpace : String := "conf"

/-- The variable `autoLoadLocalConfigs`: the automatic loading sequence. -/
def autoLoadLocalConfigs : List String := [extensionJson, extensionYaml, extensionInI]

/-- The struct `Mysql` of config.go. -/
structure Mysql where
  Path : String
  Port : String
  Config : String
  Dbname : String
  Username : String
  Password : String
deriving DecidableEq, Repr

/-- The struct `Redis` of config.go. -/
structure Redis where
  DB : Int
  Addr : String
  Password : String
deriving DecidableEq, Repr

/-- The struct `Mongo` of config.go. -/
structure Mongo where
  Host : String
  Port : String
  User : String
  Password : String
  DBname : String
deriving DecidableEq, Repr

/-- The struct `System` of config.go. -/
structure System where
  Env : String
  Addr : Int
  UploadType : String
  Version : String
deriving DecidableEq, Repr

/-- The struct `Log` of config.go. -/
structure Log where
  Level : String
  Format : String
  Prefix : String
  Director : String
  ShowLine : Bool
  EncodeLevel : String
  StacktraceKey : String
  LogInConsole : Bool
deriving DecidableEq, Repr

/-- The struct `Config` of config.go. -/
structure Config where
  Log : Log
  System : System
  Mysql : Mysql
  Redis : Redis
  Mongo : Mongo
deriving DecidableEq, Repr

/-- The Go zero value of `Config` (the declaration `var c Config`). -/
def Config.zero : Config :=
  { Log := ⟨"", "", "", "", false, "", "", false⟩,
    System := ⟨"", 0, "", ""⟩,
    Mysql := ⟨"", "", "", "", "", ""⟩,
    Redis := ⟨0, "", ""⟩,
    Mongo := ⟨"", "", "", "", ""⟩ }

/-- The method `Dsn`. -/
def Mysql.Dsn (m : Mysql) : String :=
  m.Username ++ ":" ++ m.Password ++ "@tcp(" ++ m.Path ++ ":" ++ m.Port ++ ")/" ++ m.Dbname
    ++ "?" ++ m.Config

/-- The method `EmptyDsn`: it fills in an empty path and port on its receiver and
returns the data source name without a database; the receiver afterwards is returned
too. -/
def Mysql.EmptyDsn (m : Mysql) : String × Mysql :=
  let m1 := if m.Path = "" then { m with Path := "127.0.0.1" } else m
  let m2 := if m1.Port = "" then { m1 with Port := "3306" } else m1
  (m2.Username ++ ":" ++ m2.Password ++ "@tcp(" ++ m2.Path ++ ":" ++ m2.Port ++ ")/", m2)

/-- Splitting a path at every slash (the elements may be empty). -/
def splitSlash : List Char → List (List Char)
  | [] => [[]]
  | c :: cs =>
    if c = '/' then [] :: splitSlash cs
    else
      match splitSlash cs with
      | [] => [[c]]
      | x :: xs => (c :: x) :: xs

/-- One step of the lexical cleaning of the Go function `path.Clean`, on the stack of
elements kept so far (last element first): empty and `.` elements are dropped, a `..`
removes the element before it, is dropped at the root, and is kept otherwise. -/
def cleanStep (rooted : Bool) (stack : List (List Char)) (el : List Char) :
    List (List Char) :=
  if el = [] ∨ el = ['.'] then stack
  else if el = ['.', '.'] then
    match stack with
    | [] => if rooted then [] else [el]
    | top :: rest => if top = ['.', '.'] then el :: stack else rest
  else el :: stack

/-- The Go library function `path.Clean`. -/
def pathClean (p : String) : String :=
  if p = "" then "."
  else
    let rooted : Bool := p.data.head? = some '/'
    let kept := ((splitSlash p.data).foldl (cleanStep rooted) []).reverse
    let body := String.mk (List.intercalate ['/'] kept)
    let out := if rooted then "/" ++ body else body
    if out = "" then "." else out

/-- The Go library function `path.Join` for two elements. -/
def pathJoin (a b : String) : String :=
  if a = "" ∧ b = "" then ""
  else if a = "" then pathClean b
  else if b = "" then pathClean a
  else pathClean (a ++ "/" ++ b)

/-- What viper holds after reading a configuration file: keys and raw values. -/
abbrev Settings := List (String × String)

/-- What `LoadConfig` depends on outside its arguments.  `Exists` and `Ext` are the
helpers `utils.Exists` and `utils.Ext`, which live outside the embedded files;
`readInConfig file type` is viper reading and parsing `file` as `type` (`none` when it
returns an error); `unmarshal s c` is viper decoding `s` into the struct `c` through a
pointer: the contents of the struct afterwards and whether an error was returned. -/
structure ConfEnv where
  Exists : String → Bool
  Ext : String → String
  readInConfig : String → String → Option Settings
  unmarshal : Settings → Config → Config × Bool

/-- A viper instance with the change handler `LoadConfig` registers on it: the file and
type it was pointed at, the settings it holds, and the address of the variable `c` the
handler closure captured. -/
structure Watcher where
  configFile : String
  configType : String
  settings : Settings
  target : Nat
deriving DecidableEq, Repr

/-- The process state of package platform: the `Config` variables allocated by the calls
of `LoadConfig` (a pointer is an index into `heap`), the variable `_defaultConfig`, the
watchers installed, and what was printed. -/
structure ConfState where
  heap : List Config
  defaultConfig : Option Nat
  watchers : List Watcher
  stdout : List String
deriving DecidableEq, Repr

/-- The state at process start. -/
def ConfState.init : ConfState := ⟨[], none, [], []⟩

/-- Reading through a `*Config`. -/
def ConfState.deref (st : ConfState) (p : Nat) : Option Config := st.heap[p]?

/-- The loop of `LoadConfig` over `autoLoadLocalConfigs`: `confPath` is assigned the
candidate of every extension tried, and the loop stops at the first candidate that
exists. -/
def selectPath (E : ConfEnv) (dir fileName : String) : List String → String → String
  | [], confPath => confPath
  | registerExt :: rest, _ =>
    let confPath := pathJoin dir (fileName ++ registerExt)
    if E.Exists confPath then confPath else selectPath E dir fileName rest confPath

/-- How a call of `LoadConfig` ends. -/
inductive LoadResult where
  | panicked (msg : String) (file : String) (type : String) (st : ConfState)
  | returned (c : Nat) (err : Option String) (file : String) (type : String) (st : ConfState)
deriving DecidableEq, Repr

/-- The function `LoadConfig` of config.go.  The result records, besides the returned
pointer and error, the file handed to viper and the config type set on it. -/
def LoadConfig (E : ConfEnv) (st : ConfState) (env configFileName : String) : LoadResult :=
  let dir := nameSpace ++ "/" ++ env
  let confPath := selectPath E dir configFileName autoLoadLocalConfigs ""
  let st1 := { st with stdout := st.stdout ++
    ["the path to the configuration file you are using is : " ++ confPath] }
  let ext := E.Ext confPath
  match E.readInConfig confPath ext with
  | none => LoadResult.panicked "Fatal error config file" confPath ext st1
  | some s =>
    let c := st1.heap.length
    let dec := E.unmarshal s Config.zero
    let st2 : ConfState :=
      { heap := st1.heap ++ [dec.1],
        defaultConfig := some c,
        watchers := st1.watchers ++ [⟨confPath, ext, s, c⟩],
        stdout := st1.stdout ++ (if dec.2 then ["unmarshal error"] else [])
          ++ ["load config is"] }
    LoadResult.returned c none confPath ext st2

/-- The function `GetConfigModels`. -/
def GetConfigModels (st : ConfState) : Option Nat := st.defaultConfig

/-- The closure passed to `OnConfigChange`, for the viper instance at index `i`: it
decodes what the instance holds into the captured variable `c`, through the pointer, and
prints the error, if any. -/
def onConfigChange (E : ConfEnv) (st : ConfState) (i : Nat) : ConfState :=
  match st.watchers[i]? with
  | none => st
  | some w =>
    match st.heap[w.target]? with
    | none => st
    | some c =>
      let dec := E.unmarshal w.settings c
      { st with
        heap := st.heap.set w.target dec.1,
        stdout := st.stdout ++ ["config file changed"] ++
          (if dec.2 then ["unmarshal error"] else []) }

/-- A change of the watched file as viper handles it: it reads the file again, keeps the
settings it had when that fails, and calls the registered handler in both cases. -/
def fileChanged (E : ConfEnv) (st : ConfState) (i : Nat) : ConfState :=
  match st.watchers[i]? with
  | none => st
  | some w =>
    let st1 : ConfState :=
      match E.readInConfig w.configFile w.configType with
      | some s => { st with watchers := st.watchers.set i { w with settings := s } }
      | none => st
    onConfigChange E st1 i

end Platform


namespace Logger

/-- The struct `Log` of log.go. -/
structure Log where
  Level : String
  Format : String
  Prefix : String
  Director : String
  ShowLine : Bool
  EncodeLevel : String
  StacktraceKey : String
  LogInConsole : Bool
deriving DecidableEq, Repr

/-- The value the package initialiser gives `_defaultConfig`. -/
def defaultConfig : Log :=
  { Level := "warn", Format := "console", Prefix := "[Log]", Director := "logs",
    ShowLine := false, EncodeLevel := "LowercaseLevelEncoder",
    StacktraceKey := "stacktrace", LogInConsole := true }

/-- The type `zapcore.Level` (an 8-bit signed integer in zap). -/
abbrev Level := Int

/-- The zap level constants. -/
def DebugLevel : Level := -1

/-- The constant `zap.InfoLevel`. -/
def InfoLevel : Level := 0

/-- The constant `zap.WarnLevel`. -/
def WarnLevel : Level := 1

/-- The constant `zap.ErrorLevel`. -/
def ErrorLevel : Level := 2

/-- The constant `zap.DPanicLevel`. -/
def DPanicLevel : Level := 3

/-- The constant `zap.PanicLevel`. -/
def PanicLevel : Level := 4

/-- The constant `zap.FatalLevel`. -/
def FatalLevel : Level := 5

/-- The four level enablers `Init` declares. -/
inductive Priority where
  | debugPriority
  | infoPriority
  | warnPriority
  | errorPriority
deriving DecidableEq, Repr

/-- The bodies of the four `zap.LevelEnablerFunc` closures of `Init`. -/
def Priority.Enabled : Priority → Level → Bool
  | Priority.debugPriority, lev => decide (lev = DebugLevel)
  | Priority.infoPriority, lev => decide (lev = InfoLevel)
  | Priority.warnPriority, lev => decide (lev = WarnLevel)
  | Priority.errorPriority, lev => decide (lev ≥ ErrorLevel)

/-- The level encoders `getEncoderConfig` chooses between. -/
inductive LevelEncoder where
  | LowercaseLevelEncoder
  | LowercaseColorLevelEncoder
  | CapitalLevelEncoder
  | CapitalColorLevelEncoder
deriving DecidableEq, Repr

/-- The fields of `zapcore.EncoderConfig` that `getEncoderConfig` sets from its
arguments (the remaining fields are constants). -/
structure EncoderConfig where
  StacktraceKey : String
  EncodeLevel : LevelEncoder
  timePrefix : String
deriving DecidableEq, Repr

/-- The function `getEncoderConfig`. -/
def getEncoderConfig (pfx encodeLevel stacktraceKey : String) : EncoderConfig :=
  { StacktraceKey := stacktraceKey,
    EncodeLevel :=
      if encodeLevel = "LowercaseLevelEncoder" then LevelEncoder.LowercaseLevelEncoder
      else if encodeLevel = "LowercaseColorLevelEncoder" then
        LevelEncoder.LowercaseColorLevelEncoder
      else if encodeLevel = "CapitalLevelEncoder" then LevelEncoder.CapitalLevelEncoder
      else if encodeLevel = "CapitalColorLevelEncoder" then
        LevelEncoder.CapitalColorLevelEncoder
      else LevelEncoder.LowercaseLevelEncoder,
    timePrefix := pfx }

/-- An encoder: JSON or console, with its configuration. -/
structure Encoder where
  json : Bool
  config : EncoderConfig
deriving DecidableEq, Repr

/-- The function `getEncoder`. -/
def getEncoder (pfx format encodeLevel stacktraceKey : String) : Encoder :=
  if format = "json" then ⟨true, getEncoderConfig pfx encodeLevel stacktraceKey⟩
  else ⟨false, getEncoderConfig pfx encodeLevel stacktraceKey⟩

/-- The `lumberjack.Logger` that `getWriteSyncer` builds, and whether the records are
duplicated to standard output. -/
structure WriteSyncer where
  stdout : Bool
  Filename : String
  MaxSize : Nat
  MaxBackups : Nat
  MaxAge : Nat
  Compress : Bool
deriving DecidableEq, Repr

/-- The function `getWriteSyncer`. -/
def getWriteSyncer (logInConsole : Bool) (file : String) : WriteSyncer :=
  { stdout := logInConsole, Filename := file, MaxSize := 10, MaxBackups := 200,
    MaxAge := 30, Compress := true }

/-- A `zapcore.Core` made by `zapcore.NewCore`: encoder, destination and enabler. -/
structure Core where
  enc : Encoder
  writer : WriteSyncer
  level : Priority
deriving DecidableEq, Repr

/-- The function `getEncoderCore`. -/
def getEncoderCore (logInConsole : Bool) (pfx format encodeLevel stacktraceKey : String)
    (fileName : String) (level : Priority) : Core :=
  { enc := getEncoder pfx format encodeLevel stacktraceKey,
    writer := getWriteSyncer logInConsole fileName,
    level := level }

/-- The core `Init` makes for one tier of a configuration. -/
def tierCore (config : Log) (tier : String) (level : Priority) : Core :=
  getEncoderCore config.LogInConsole config.Prefix config.Format config.EncodeLevel
    config.StacktraceKey (config.Director ++ "/server_" ++ tier ++ ".log") level

/-- The switch on `config.Level` in `Init`: the cores appended, in order. -/
def buildCores (config : Log) : List Core :=
  if config.Level = "info" then
    [tierCore config "info" Priority.infoPriority,
     tierCore config "warn" Priority.warnPriority,
     tierCore config "error" Priority.errorPriority]
  else if config.Level = "warn" then
    [tierCore config "warn" Priority.warnPriority,
     tierCore config "error" Priority.errorPriority]
  else if config.Level = "error" then
    [tierCore config "error" Priority.errorPriority]
  else
    [tierCore config "debug" Priority.debugPriority,
     tierCore config "info" Priority.infoPriority,
     tierCore config "warn" Priority.warnPriority,
     tierCore config "error" Priority.errorPriority]

/-- The logger `zap.New(zapcore.NewTee(cores...), zap.AddCaller())`. -/
structure ZapLogger where
  cores : List Core
  addCaller : Bool
deriving DecidableEq, Repr

/-- The directory operations `Init` uses: `utils.Exists` and `os.Mkdir` (true when the
directory was created, false when `os.Mkdir` returned an error). -/
structure Dirs where
  Exists : String → Bool
  Mkdir : String → Bool

/-- The result of `Init`: the returned logger, the value of `_defaultLogger` afterwards,
what was printed, and the directory creation attempted with its success, if any. -/
structure InitResult where
  logger : ZapLogger
  defaultLogger : Option ZapLogger
  stdout : List String
  mkdir : Option (String × Bool)
deriving DecidableEq, Repr

/-- The function `Init` of log.go (`none` is a nil configuration). -/
def Init (D : Dirs) (config : Option Log) : InitResult :=
  let config := match config with
    | none => defaultConfig
    | some c => c
  let made : Option (String × Bool) :=
    if D.Exists config.Director then none
    else some (config.Director, D.Mkdir config.Director)
  let out := if D.Exists config.Director then []
    else ["create " ++ config.Director ++ " directory"]
  let logger : ZapLogger := ⟨buildCores config, true⟩
  { logger := logger, defaultLogger := some logger, stdout := out, mkdir := made }

/-- The files a record of level `lev` is written to by a tee of cores: a core writes the
record exactly when its enabler accepts the level. -/
def written (lg : ZapLogger) (lev : Level) : List String :=
  (lg.cores.filter (fun c => c.level.Enabled lev)).map (fun c => c.writer.Filename)

/-- The files a logger has a destination for. -/
def wired (lg : ZapLogger) : List String :=
  lg.cores.map (fun c => c.writer.Filename)

end Logger

namespace Backend

/-- An opened client object (a `*gorm.DB`, a `*redis.Client` or a `*mgo.Session`), named
by a number. -/
abbrev Handle := Nat

/-- A record handed to a process-wide logger. -/
structure LogRecord where
  level : Logger.Level
  msg : String
deriving DecidableEq, Repr

/-- The process-wide variables the connectors and the options work on: the logger of
package logger (`_defaultLogger`), whether the logger package that mongo.go brings in
from another module has a logger, the records written so far, and the three handle
slots `mysql._defaultDB`, `redis._defaultRedis` and `mongo._defaultDB`. -/
structure World where
  logger : Option Logger.ZapLogger
  extLoggerSet : Bool
  log : List LogRecord
  mysqlDB : Option Handle
  redisClient : Option Handle
  mongoDB : Option Handle
deriving DecidableEq, Repr

/-- The world at process start: nothing initialised. -/
def World.init : World := ⟨none, false, [], none, none, none⟩

/-- How a call ends: it returns a value, or it panics. -/
inductive Res (α : Type) where
  | ret (a : α) (w : World)
  | panic (msg : String) (w : World)
deriving DecidableEq, Repr

/-- Sequencing of calls: a panic skips what follows. -/
def Res.bind {α β : Type} (r : Res α) (f : α → World → Res β) : Res β :=
  match r with
  | Res.ret a w => f a w
  | Res.panic m w => Res.panic m w

/-- Whether the call returned. -/
def Res.returns {α : Type} : Res α → Bool
  | Res.ret _ _ => true
  | Res.panic _ _ => false

/-- The value a call returned, if it returned. -/
def Res.value {α : Type} : Res α → Option α
  | Res.ret a _ => some a
  | Res.panic _ _ => none

/-- The world a call leaves. -/
def Res.world {α : Type} : Res α → World
  | Res.ret _ w => w
  | Res.panic _ w => w

/-- A call `logger.GetLogger().Error(msg)` or `.Info(msg)`: a method call on the nil
logger dereferences nil. -/
def logAt (lev : Logger.Level) (msg : String) (w : World) : Res Unit :=
  match w.logger with
  | none => Res.panic "nil pointer dereference" w
  | some _ => Res.ret () { w with log := w.log ++ [⟨lev, msg⟩] }

/-- The same call on the logger of the foreign logger package used by mongo.go. -/
def extLogAt (lev : Logger.Level) (msg : String) (w : World) : Res Unit :=
  if w.extLoggerSet then Res.ret () { w with log := w.log ++ [⟨lev, msg⟩] }
  else Res.panic "nil pointer dereference" w

/-- A call `logger.GetLogger().Panic(msg)` on that logger: zap writes the record at panic
level and then panics with the message. -/
def extLogPanic (msg : String) (w : World) : Res Unit :=
  if w.extLoggerSet then Res.panic msg { w with log := w.log ++ [⟨Logger.PanicLevel, msg⟩] }
  else Res.panic "nil pointer dereference" w

/-- The outcomes of the driver calls the connectors branch on (`none` and `Except.ok`
stand for a nil error). -/
structure Drivers where
  sqlOpen : String → String → Option String
  sqlPing : String → Option String
  sqlExec : String → String → Option String
  sqlClose : String → Option String
  gormOpen : String → Except String Handle
  redisNewClient : String → String → Int → Handle
  redisPing : Handle → Option String
  mgoDial : String → Except String Handle
  mgoLogin : Handle → String → String → String → Option String

end Backend

namespace Mysql

open Backend

/-- The function `Init` of mysql.go: the returned handle and error, and the world. -/
def Init (D : Drivers) (w : World) (dsn : String) : (Option Handle × Option String) × World :=
  match D.gormOpen dsn with
  | Except.error err => ((none, some err), w)
  | Except.ok db => ((some db, none), { w with mysqlDB := some db })

/-- The function `CreateMysqlDsn`. -/
def CreateMysqlDsn (username password path port dbname config : String) : String :=
  username ++ ":" ++ password ++ "@tcp(" ++ path ++ ":" ++ port ++ ")/" ++ dbname ++ "?"
    ++ config

/-- The function `GetMysqlDB`: the returned pointer. -/
def GetMysqlDB (w : World) : Res (Option Handle) :=
  match w.mysqlDB with
  | none =>
    (logAt Logger.ErrorLevel "mysql database is not initialized" w).bind
      (fun _ w1 => Res.ret none w1)
  | some db => Res.ret (some db) w

/-- The function `CreateDatabase`: the returned error.  The deferred close assigns to a
local variable after the result has been fixed, so its error is printed only. -/
def CreateDatabase (D : Drivers) (dsn driver createSql : String) : Option String :=
  match D.sqlOpen driver dsn with
  | some err => some err
  | none =>
    match D.sqlPing dsn with
    | some err => some err
    | none => D.sqlExec dsn createSql

end Mysql

namespace Redis

open Backend

/-- The function `Init` of redis.go.  The named result `r` is never assigned, so the
returned client is nil; the slot is assigned after the ping whatever its result. -/
def Init (D : Drivers) (w : World) (addr password : String) (db : Int) :
    (Option Handle × Option String) × World :=
  let client := D.redisNewClient addr password db
  let err := D.redisPing client
  ((none, err), { w with redisClient := some client })

/-- The function `GetRedis`. -/
def GetRedis (w : World) : Res (Option Handle) :=
  match w.redisClient with
  | none =>
    (logAt Logger.ErrorLevel "redis is not initialized" w).bind (fun _ w1 => Res.ret none w1)
  | some c => Res.ret (some c) w

end Redis

namespace Mongo

open Backend

/-- The function `Init` of mongo.go: the returned error (`none` is nil). -/
def Init (D : Drivers) (w : World) (host port dbname user password : String) :
    Res (Option String) :=
  match D.mgoDial (host ++ ":" ++ port) with
  | Except.error err =>
    (extLogAt Logger.ErrorLevel err w).bind fun _ w1 =>
    (extLogPanic "panic: connect wrong" w1).bind fun _ w2 =>
    Res.ret (some err) w2
  | Except.ok mgosession =>
    if user ≠ "" then
      match D.mgoLogin mgosession dbname user password with
      | some err =>
        (extLogAt Logger.ErrorLevel err w).bind fun _ w1 =>
        (extLogPanic "panic: login db wrong" w1).bind fun _ w2 =>
        Res.ret (some err) w2
      | none => Res.ret none { w with mongoDB := some mgosession }
    else Res.ret none { w with mongoDB := some mgosession }

/-- The function `GetMongoDB`. -/
def GetMongoDB (w : World) : Res (Option Handle) :=
  Res.ret w.mongoDB w

end Mongo

namespace Server

open Backend

/-- The three options api.go defines. -/
inductive Opt where
  | WithMysql
  | WithRedis
  | WithMongo
deriving DecidableEq, Repr

/-- The closure returned by `WithMysql`. -/
def WithMysql (D : Drivers) (c : Platform.Config) (w : World) : Res Unit :=
  let e := c.Mysql.EmptyDsn
  let dsn := e.1
  let mysqlConfig := e.2
  let createSql := "CREATE DATABASE IF NOT EXISTS `" ++ mysqlConfig.Dbname ++
    "` DEFAULT CHARACTER SET utf8mb4 ;"
  let r0 : Res Unit :=
    match Mysql.CreateDatabase D dsn "mysql" createSql with
    | some err => logAt Logger.ErrorLevel ("create mysql database failed , error:" ++ err) w
    | none => Res.ret () w
  r0.bind fun _ w1 =>
    let r := Mysql.Init D w1 mysqlConfig.Dsn
    match r.1.2 with
    | some err => logAt Logger.ErrorLevel ("api-server:init mysql failed , error:" ++ err) r.2
    | none => logAt Logger.InfoLevel "api-server:init mysql success" r.2

/-- The closure returned by `WithRedis`. -/
def WithRedis (D : Drivers) (c : Platform.Config) (w : World) : Res Unit :=
  let redisConfig := c.Redis
  let r := Redis.Init D w redisConfig.Addr redisConfig.Password redisConfig.DB
  match r.1.2 with
  | some err => logAt Logger.ErrorLevel ("api-server:init redis failed , error:" ++ err) r.2
  | none => logAt Logger.InfoLevel "api-server:init redis success" r.2

/-- The closure returned by `WithMongo`. -/
def WithMongo (D : Drivers) (c : Platform.Config) (w : World) : Res Unit :=
  let mongoConfig := c.Mongo
  (Mongo.Init D w mongoConfig.Host mongoConfig.Port mongoConfig.DBname mongoConfig.User
    mongoConfig.Password).bind fun err w1 =>
    match err with
    | some e => logAt Logger.ErrorLevel ("api-server:init mongo failed , error:" ++ e) w1
    | none => logAt Logger.InfoLevel "api-server:init mongo success" w1

/-- Applying one option to the loaded configuration. -/
def applyOpt (D : Drivers) (c : Platform.Config) (o : Opt) (w : World) : Res Unit :=
  match o with
  | Opt.WithMysql => WithMysql D c w
  | Opt.WithRedis => WithRedis D c w
  | Opt.WithMongo => WithMongo D c w

/-- The loop `for _, opt := range opts { opt(defaultConfig) }` of `NewApiServer`. -/
def applyOpts (D : Drivers) (c : Platform.Config) : List Opt → World → Res Unit
  | [], w => Res.ret () w
  | o :: os, w => (applyOpt D c o w).bind fun _ w1 => applyOpts D c os w1

/-- The command-line options `ApiOptions` after parsing. -/
structure ApiOptionsT where
  Environment : String
  Version : Bool
  EnablePProfile : Bool
  PProfilePort : Int
  HealthCheckURI : String
  HealthCheckPort : Int
  ConfigFileName : String
deriving DecidableEq, Repr

/-- How `parser.Parse()` ends. -/
inductive ParseOutcome where
  | ok
  | help
  | failed (msg : String)
deriving DecidableEq, Repr

/-- What `NewApiServer` depends on outside its arguments.  `envInvalid`,
`newGlobalEnvironment`, `EnvProduction` and `EnvTesting` belong to the environment type of
package platform, which is defined outside the embedded files. -/
structure BootEnv where
  parse : ParseOutcome
  options : ApiOptionsT
  envInvalid : String → Bool
  newGlobalEnvironment : Except String String
  EnvProduction : String
  EnvTesting : String
  conf : Platform.ConfEnv
  dirs : Logger.Dirs
  drivers : Drivers

/-- The process state `NewApiServer` works on. -/
structure Proc where
  world : World
  conf : Platform.ConfState
  signalInstalled : Bool
  pprof : Bool
  ginMode : Option String
deriving DecidableEq, Repr

/-- The process state at start. -/
def Proc.init : Proc := ⟨World.init, Platform.ConfState.init, false, false, none⟩

/-- How `NewApiServer` ends: the process exits, an error is returned, the call panics,
or a server is returned. -/
inductive NewResult where
  | exited (code : Nat)
  | failed (err : String)
  | panicked (msg : String) (p : Proc)
  | created (srv : ApiServer) (p : Proc)
deriving DecidableEq, Repr

/-- The function `NewApiServer` of api.go.  The call of `logger.Init` there passes the
eight fields of the log section one by one; they are handed over as one `Log` value. -/
def NewApiServer (B : BootEnv) (p : Proc) (opts : List Opt) : NewResult :=
  match B.parse with
  | ParseOutcome.help => NewResult.exited 0
  | ParseOutcome.failed msg => NewResult.failed msg
  | ParseOutcome.ok =>
    if B.options.Version then NewResult.exited 0
    else
      let p1 := if B.options.EnablePProfile then { p with pprof := true } else p
      let envR : Except String String :=
        if B.envInvalid B.options.Environment then B.newGlobalEnvironment
        else Except.ok B.options.Environment
      match envR with
      | Except.error err => NewResult.failed err
      | Except.ok env =>
        let configFile :=
          if B.options.ConfigFileName = "" then "main" else B.options.ConfigFileName
        match Platform.LoadConfig B.conf p1.conf env configFile with
        | Platform.LoadResult.panicked msg _ _ st => NewResult.panicked msg { p1 with conf := st }
        | Platform.LoadResult.returned _ (some err) _ _ _ => NewResult.failed err
        | Platform.LoadResult.returned c none _ _ st =>
          match st.deref c with
          | none => NewResult.panicked "nil pointer dereference" { p1 with conf := st }
          | some defaultConfig =>
            let logConfig := defaultConfig.Log
            let li := Logger.Init B.dirs (some
              { Level := logConfig.Level, Format := logConfig.Format,
                Prefix := logConfig.Prefix, Director := logConfig.Director,
                ShowLine := logConfig.ShowLine, EncodeLevel := logConfig.EncodeLevel,
                StacktraceKey := logConfig.StacktraceKey,
                LogInConsole := logConfig.LogInConsole })
            let w1 := { p1.world with logger := li.defaultLogger }
            match applyOpts B.drivers defaultConfig opts w1 with
            | Res.panic msg w2 => NewResult.panicked msg { p1 with conf := st, world := w2 }
            | Res.ret _ w2 =>
              let apiServer : ApiServer :=
                { Engine := none, HttpServer := none,
                  Addr := ":" ++ toString defaultConfig.System.Addr,
                  doneChan := none, Routers := [], Middlewares := [], Shutdowns := [],
                  Services := [] }
              let mode : Option String :=
                if env = B.EnvProduction then some "release"
                else if env = B.EnvTesting then some "debug"
                else p1.ginMode
              NewResult.created apiServer
                { p1 with conf := st, world := w2, signalInstalled := true, ginMode := mode }

/-- The signals the listener of `setupSignal` is notified of. -/
inductive Signal where
  | SIGINT
  | SIGHUP
  | SIGTERM
deriving DecidableEq, Repr

/-- One turn of the loop in the goroutine of `setupSignal`: the signal is logged and
`Shutdown` is called. -/
def handleSignal (H : Hooks) (loggerSet : Bool) (_sig : Signal) (srv : ApiServer) : Run :=
  if loggerSet then Shutdown H srv
  else ⟨srv, [], some Panic.nilLogger⟩

end Server

/-! ## Auxiliary definitions used in the statements -/

namespace Server

/-- One call of the registration interface of `ApiServer`, with its arguments. -/
inductive Registration where
  | service (handlers : List HookId)
  | middleware (middlewares : List HookId)
  | routers (routers : List HookId)
  | shutdown (handlers : List HookId)
deriving DecidableEq, Repr

/-- Performing a registration call. -/
def register (srv : ApiServer) : Registration → ApiServer
  | Registration.service hs => RegisterService srv hs
  | Registration.middleware hs => RegisterMiddleware srv hs
  | Registration.routers hs => RegisterRouters srv hs
  | Registration.shutdown hs => RegisterShutdown srv hs

/-- The service callbacks passed in a sequence of registration calls, in call order and
argument order. -/
def servicesOf : List Registration → List HookId
  | [] => []
  | Registration.service hs :: rest => hs ++ servicesOf rest
  | _ :: rest => servicesOf rest

/-- The middleware callbacks passed in a sequence of registration calls. -/
def middlewaresOf : List Registration → List HookId
  | [] => []
  | Registration.middleware hs :: rest => hs ++ middlewaresOf rest
  | _ :: rest => middlewaresOf rest

/-- The router callbacks passed in a sequence of registration calls. -/
def routersOf : List Registration → List HookId
  | [] => []
  | Registration.routers hs :: rest => hs ++ routersOf rest
  | _ :: rest => routersOf rest

/-- The server as the closures of a list leave it when they are called one after the
other, each with the rest of the list still to be read. -/
def afterHooks (f : Behaviour) : List HookId → ApiServer → ApiServer
  | [], srv => srv
  | h :: rest, srv => afterHooks f rest (f h srv rest).srv

/-- A closure that returns whenever it is called and does not write into the slots the
loop has still to read. -/
def Returns (f : Behaviour) (h : HookId) : Prop :=
  ∀ s r, (f h s r).panics = false ∧ (f h s r).slots = r

/-- A closure that panics whenever it is called. -/
def AlwaysPanics (f : Behaviour) (h : HookId) : Prop :=
  ∀ s r, (f h s r).panics = true

/-- A closure that leaves a component of the server as it found it. -/
def Keeps {α : Type} (g : ApiServer → α) (f : Behaviour) (h : HookId) : Prop :=
  ∀ s r, g (f h s r).srv = g s

/-- The server as the start-up callbacks leave it when all of them return: the engine is
installed, then the Service, the Middleware and the Router callbacks are called. -/
def afterStartupHooks (H : Hooks) (S M R : List HookId) (srv : ApiServer) : ApiServer :=
  afterHooks H.eng R (afterHooks H.eng M
    (afterHooks H.srv S { srv with Engine := some newEngine }))

/-- Callbacks that return and leave the server and the slots as they found them. -/
def quietHooks : Hooks :=
  { srv := fun _ s r => ⟨s, r, false⟩, eng := fun _ s r => ⟨s, r, false⟩ }

/-- Callbacks of which the one named `k` panics when called as a `func(*ApiServer)`. -/
def panicAt (k : HookId) : Hooks :=
  { srv := fun h s r => ⟨s, r, h == k⟩, eng := fun _ s r => ⟨s, r, false⟩ }

/-- Callbacks of which the `func(*ApiServer)` named `k` assigns `srv.HttpServer`. -/
def assignHttpAt (k : HookId) : Hooks :=
  { srv := fun h s r =>
      if h = k then ⟨{ s with HttpServer := some (mkHttpServer s) }, r, false⟩
      else ⟨s, r, false⟩,
    eng := fun _ s r => ⟨s, r, false⟩ }

/-- Callbacks of which the `func(*ApiServer)` named `k` runs `srv.Routers = nil`. -/
def dropRoutersAt (k : HookId) : Hooks :=
  { srv := fun h s r => if h = k then ⟨{ s with Routers := [] }, r, false⟩ else ⟨s, r, false⟩,
    eng := fun _ s r => ⟨s, r, false⟩ }

/-- Callbacks of which the `func(*ApiServer)` named `k` runs `srv.Shutdowns[i] = g` for
the slot `i` that follows its own: the write lands in the array the loop is walking. -/
def overwriteNextAt (k g : HookId) : Hooks :=
  { srv := fun h s r =>
      if h = k then
        ⟨{ s with Shutdowns := s.Shutdowns.take (s.Shutdowns.length - r.length) ++
            overwrite r [g] }, overwrite r [g], false⟩
      else ⟨s, r, false⟩,
    eng := fun _ s r => ⟨s, r, false⟩ }

/-- A server as `NewApiServer` builds it: only the address is set. -/
def bareServer : ApiServer :=
  { Engine := none, HttpServer := none, Addr := ":8080", doneChan := none, Routers := [],
    Middlewares := [], Shutdowns := [], Services := [] }

/-- A server on which `ListenAndServe` has set the engine and the `http.Server`. -/
def servingServer : ApiServer :=
  { bareServer with
    Engine := some newEngine,
    HttpServer := some (mkHttpServer { bareServer with Engine := some newEngine }) }

/-- A sample sequence of registration calls, the categories interleaved. -/
def sampleRegs : List Registration :=
  [Registration.routers [1], Registration.service [2, 3], Registration.middleware [4],
   Registration.shutdown [9], Registration.routers [5, 1], Registration.service [6]]

/-- A sample environment of `ListenAndServe`: the logger exists and the listener ends
with `http.ErrServerClosed`. -/
def sampleEnv : ServeEnv := ⟨true, fun _ => ListenResult.serverClosed⟩

/-- Whether `NewApiServer` returned a server. -/
def NewResult.isCreated : NewResult → Bool
  | NewResult.created _ _ => true
  | _ => false

/-- The message of the panic that ended `NewApiServer`, if one did. -/
def NewResult.panicMsg : NewResult → Option String
  | NewResult.panicked msg _ => some msg
  | _ => none

/-- The process state `NewApiServer` left when it panicked or returned a server. -/
def NewResult.proc : NewResult → Option Proc
  | NewResult.created _ p => some p
  | NewResult.panicked _ p => some p
  | _ => none

/-- The server `NewApiServer` returned, if it returned one. -/
def NewResult.server : NewResult → Option ApiServer
  | NewResult.created srv _ => some srv
  | _ => none

/-- The shutdown callbacks passed in a sequence of registration calls, in call order and
argument order. -/
def shutdownsOf : List Registration → List HookId
  | [] => []
  | Registration.shutdown hs :: rest => hs ++ shutdownsOf rest
  | _ :: rest => shutdownsOf rest

end Server

namespace Platform

/-- The path `LoadConfig` probes for an extension: `conf/<env>/<fileName><ext>`, joined
and cleaned by `path.Join`. -/
def candidate (env fileName ext : String) : String :=
  pathJoin (nameSpace ++ "/" ++ env) (fileName ++ ext)

/-- The file a call of `LoadConfig` handed to viper (`SetConfigFile`). -/
def LoadResult.file : LoadResult → String
  | LoadResult.panicked _ f _ _ => f
  | LoadResult.returned _ _ f _ _ => f

/-- The config type a call of `LoadConfig` set on viper (`SetConfigType`). -/
def LoadResult.type : LoadResult → String
  | LoadResult.panicked _ _ t _ => t
  | LoadResult.returned _ _ _ t _ => t

/-- Whether the call of `LoadConfig` panicked. -/
def LoadResult.panics : LoadResult → Bool
  | LoadResult.panicked _ _ _ _ => true
  | LoadResult.returned _ _ _ _ _ => false

/-- The error value a call of `LoadConfig` returned, if it returned one. -/
def LoadResult.error : LoadResult → Option String
  | LoadResult.panicked _ _ _ _ => none
  | LoadResult.returned _ err _ _ _ => err

/-- The state a call of `LoadConfig` leaves. -/
def LoadResult.state : LoadResult → ConfState
  | LoadResult.panicked _ _ _ st => st
  | LoadResult.returned _ _ _ _ st => st

/-- The log level stored in the configuration a pointer leads to. -/
def levelAt (st : ConfState) (p : Nat) : Option String :=
  (st.deref p).map (fun c => c.Log.Level)

/-- A sample decoder that behaves as the decoder of viper does: every key it can decode is stored in
the struct, and an error is reported if some key cannot be decoded. -/
def sampleUnmarshal (s : Settings) (c : Config) : Config × Bool :=
  let c1 : Config :=
    match s.lookup "log.level" with
    | some v => { c with Log := { c.Log with Level := v } }
    | none => c
  (c1, decide (s.lookup "system.addr" = some "oops"))

/-- The characters after the last dot of a path, if it has a dot. -/
def lastDotSuffix : List Char → Option (List Char)
  | [] => none
  | c :: cs =>
    match lastDotSuffix cs with
    | some s => some s
    | none => if c = '.' then some cs else none

/-- A sample extension helper: the text after the last dot. -/
def sampleExt (p : String) : String :=
  match lastDotSuffix p.data with
  | some e => String.mk e
  | none => ""

/-- A sample environment: the files in `files` exist and parse to the given settings. -/
def sampleConf (files : List (String × Settings)) : ConfEnv :=
  { Exists := fun p => (files.lookup p).isSome,
    Ext := sampleExt,
    readInConfig := fun p _ => files.lookup p,
    unmarshal := sampleUnmarshal }

end Platform

namespace Backend

/-- Sample drivers: every server is reachable or not as the flags say; a new client gets
the number `fresh`. -/
def sampleDrivers (mysqlUp redisUp mongoUp : Bool) (fresh : Handle) : Drivers :=
  { sqlOpen := fun _ _ => none,
    sqlPing := fun _ => if mysqlUp then none else some "connection refused",
    sqlExec := fun _ _ => none,
    sqlClose := fun _ => none,
    gormOpen := fun _ => if mysqlUp then Except.ok fresh else Except.error "connection refused",
    redisNewClient := fun _ _ _ => fresh,
    redisPing := fun _ => if redisUp then none else some "connection refused",
    mgoDial := fun _ => if mongoUp then Except.ok fresh else Except.error "no reachable servers",
    mgoLogin := fun _ _ _ _ => none }

/-- A world in which both loggers exist and no backend has been initialised. -/
def loggedWorld : World :=
  { World.init with logger := some ⟨[], true⟩, extLoggerSet := true }

end Backend

namespace Logger

/-- The file of a tier under the configured directory. -/
def tierFile (config : Log) (tier : String) : String :=
  config.Director ++ "/server_" ++ tier ++ ".log"

/-- The routing policy in the words of the specification: the tiers wired for a
configured level. -/
def specTiers (level : String) : List String :=
  if level = "info" then ["info", "warn", "error"]
  else if level = "warn" then ["warn", "error"]
  else if level = "error" then ["error"]
  else ["debug", "info", "warn", "error"]

/-- The routing policy in the words of the specification: a tier receives a record when
the record level equals the tier, the error tier from the error level upwards. -/
def specAccepts (tier : String) (lev : Level) : Bool :=
  if tier = "debug" then decide (lev = DebugLevel)
  else if tier = "info" then decide (lev = InfoLevel)
  else if tier = "warn" then decide (lev = WarnLevel)
  else if tier = "error" then decide (lev ≥ ErrorLevel)
  else false

/-- Directory operations that find every directory in place. -/
def dirsPresent : Dirs := ⟨fun _ => true, fun _ => true⟩

/-- Directory operations under which no directory exists and none can be created. -/
def dirsFailing : Dirs := ⟨fun _ => false, fun _ => false⟩

end Logger

namespace Server

/-- A sample start-up environment: the flags parse, the environment is valid, the files
in `files` exist, and the drivers are `D`. -/
def sampleBoot (files : List (String × Platform.Settings)) (D : Backend.Drivers) : BootEnv :=
  { parse := ParseOutcome.ok,
    options := ⟨"testing", false, false, 8188, "/health", 8186, "main"⟩,
    envInvalid := fun _ => false,
    newGlobalEnvironment := Except.ok "testing",
    EnvProduction := "production",
    EnvTesting := "testing",
    conf := Platform.sampleConf files,
    dirs := Logger.dirsPresent,
    drivers := D }

/-- The files of a sample deployment: one JSON configuration for the testing
environment. -/
def sampleFiles : List (String × Platform.Settings) :=
  [("conf/testing/main.json", [("log.level", "info")])]

end Server

/-! ## Server lifecycle: the hook loops -/

namespace Server

open Backend

/-- Writing back what the slots hold changes nothing. -/
theorem overwrite_self (r : List HookId) : overwrite r r = r := by
  induction r with
  | nil => rfl
  | cons x xs ih => simp [overwrite, ih]

/-- Writing into the slots does not change their number. -/
theorem overwrite_length (r : List HookId) : ∀ x : List HookId,
    (overwrite r x).length = r.length := by
  induction r with
  | nil => intro x; rfl
  | cons a t ih =>
    intro x
    cases x with
    | nil => rfl
    | cons y ys => simp [overwrite, ih]

/-- Whatever the closures do, a loop adds to the trace the events of the closures it
called, and it ends without a panic or with the panic of one of them. -/
theorem runHooks_events (f : Behaviour) (ev : HookId → Event) (n : Nat) :
    ∀ (l : List HookId) (srv : ApiServer) (tr : List Event),
      ∃ xs : List HookId, (runHooks f ev n l srv tr).trace = tr ++ xs.map ev ∧
        ((runHooks f ev n l srv tr).panicked = none ∨
          ∃ h, (runHooks f ev n l srv tr).panicked = some (Panic.hook h)) := by
  induction n with
  | zero => intro l srv tr; exact ⟨[], by simp [runHooks]⟩
  | succ n ih =>
    intro l srv tr
    cases l with
    | nil => exact ⟨[], by simp [runHooks]⟩
    | cons h rest =>
      by_cases hp : (f h srv rest).panics = true
      · exact ⟨[h], by simp [runHooks, hp]⟩
      · obtain ⟨xs, hx, hk⟩ :=
          ih (overwrite rest (f h srv rest).slots) (f h srv rest).srv (tr ++ [ev h])
        refine ⟨h :: xs, ?_, ?_⟩
        · simp [runHooks, hp, hx]
        · simpa [runHooks, hp] using hk

/-- When every closure of the list returns and leaves the slots alone, the loop calls all
of them, in list order, and does not panic; the server is left as the calls leave it. -/
theorem runHooks_ok (f : Behaviour) (ev : HookId → Event) (l : List HookId) :
    ∀ (srv : ApiServer) (tr : List Event),
      (∀ h ∈ l, Returns f h) →
      (runHooks f ev l.length l srv tr).panicked = none ∧
      (runHooks f ev l.length l srv tr).trace = tr ++ l.map ev ∧
      (runHooks f ev l.length l srv tr).srv = afterHooks f l srv := by
  induction l with
  | nil => intro srv tr _; simp [runHooks, afterHooks]
  | cons h t ih =>
    intro srv tr hret
    have h1 := hret h (by simp) srv t
    have h2 := ih (f h srv t).srv (tr ++ [ev h]) (fun x hx => hret x (by simp [hx]))
    simp [runHooks, h1.1, h1.2, overwrite_self, h2, afterHooks]

/-- When the closures before `h` return and leave the slots alone and `h` panics, the
loop ends at `h`: the closures before it and `h` have been called, the later ones not. -/
theorem runHooks_panic (f : Behaviour) (ev : HookId → Event) (pre : List HookId)
    (h : HookId) (post : List HookId) :
    ∀ (srv : ApiServer) (tr : List Event),
      (∀ x ∈ pre, Returns f x) → AlwaysPanics f h →
      (runHooks f ev (pre ++ h :: post).length (pre ++ h :: post) srv tr).panicked =
          some (Panic.hook h) ∧
      (runHooks f ev (pre ++ h :: post).length (pre ++ h :: post) srv tr).trace =
          tr ++ (pre ++ [h]).map ev := by
  induction pre with
  | nil =>
    intro srv tr _ hp
    have h1 := hp srv post
    simp [runHooks, h1]
  | cons a t ih =>
    intro srv tr hret hp
    have h1 := hret a (by simp) srv (t ++ h :: post)
    have h2 := ih (f a srv (t ++ h :: post)).srv (tr ++ [ev a])
      (fun x hx => hret x (by simp [hx])) hp
    simpa [runHooks, h1.1, h1.2, overwrite_self] using h2

/-- Closures that leave a component of the server alone leave it alone one after the
other. -/
theorem afterHooks_keep {α : Type} (g : ApiServer → α) (f : Behaviour) (l : List HookId) :
    ∀ srv : ApiServer, (∀ h ∈ l, Keeps g f h) → g (afterHooks f l srv) = g srv := by
  induction l with
  | nil => intro srv _; rfl
  | cons h t ih =>
    intro srv hk
    rw [afterHooks, ih (f h srv t).srv (fun x hx => hk x (by simp [hx]))]
    exact hk h (by simp) srv t

/-! ## Registration -/

/-- Calls of `RegisterShutdown` append their arguments, call after call, and change
nothing else. -/
theorem registerShutdown_foldl (regs : List (List HookId)) :
    ∀ srv : ApiServer,
      (regs.foldl RegisterShutdown srv).Shutdowns = srv.Shutdowns ++ regs.flatten ∧
      (regs.foldl RegisterShutdown srv).HttpServer = srv.HttpServer := by
  induction regs with
  | nil => intro srv; simp
  | cons r rs ih => intro srv; simp [List.foldl, ih, RegisterShutdown]

/-- A sequence of registration calls appends to each registry the arguments of the calls
for that registry, in call order, and leaves the address and `HttpServer` alone. -/
theorem register_foldl (regs : List Registration) :
    ∀ srv : ApiServer,
      (regs.foldl register srv).Services = srv.Services ++ servicesOf regs ∧
      (regs.foldl register srv).Middlewares = srv.Middlewares ++ middlewaresOf regs ∧
      (regs.foldl register srv).Routers = srv.Routers ++ routersOf regs ∧
      (regs.foldl register srv).Shutdowns = srv.Shutdowns ++ shutdownsOf regs ∧
      (regs.foldl register srv).Addr = srv.Addr ∧
      (regs.foldl register srv).HttpServer = srv.HttpServer := by
  induction regs with
  | nil => intro srv; simp [servicesOf, middlewaresOf, routersOf, shutdownsOf]
  | cons r rs ih =>
    intro srv
    cases r <;>
      simp [List.foldl, ih, register, RegisterService, RegisterMiddleware, RegisterRouters,
        RegisterShutdown, servicesOf, middlewaresOf, routersOf, shutdownsOf]

/-! ## Shutdown -/

/-- A call of `Shutdown` whose hook loop ended in a panic ends in that panic, with
nothing done after the loop. -/
theorem shutdown_stage_panic (H : Hooks) (srv : ApiServer) (p : Panic)
    (hp : (runSrvHooks H Event.shutdownHook srv.Shutdowns srv []).panicked = some p) :
    (Shutdown H srv).trace = (runSrvHooks H Event.shutdownHook srv.Shutdowns srv []).trace ∧
    (Shutdown H srv).panicked = some p ∧
    (Shutdown H srv).srv = (runSrvHooks H Event.shutdownHook srv.Shutdowns srv []).srv := by
  unfold Shutdown
  by_cases hl : srv.Shutdowns.length > 0
  · simp [hl, hp]
  · have hnil : srv.Shutdowns = [] := by
      cases hsd : srv.Shutdowns with
      | nil => rfl
      | cons a b => simp [hsd] at hl
    simp [hnil, runSrvHooks, runHooks] at hp

/-- A call of `Shutdown` whose hook loop ended without a panic waits and then calls
`srv.HttpServer.Shutdown`, which dereferences the field as the loop left it. -/
theorem shutdown_stage_ok (H : Hooks) (srv : ApiServer)
    (hp : (runSrvHooks H Event.shutdownHook srv.Shutdowns srv []).panicked = none) :
    (Shutdown H srv).trace =
      (runSrvHooks H Event.shutdownHook srv.Shutdowns srv []).trace ++
        [Event.graceWait shutdownWait, Event.httpShutdown] ∧
    (Shutdown H srv).panicked =
      (if (runSrvHooks H Event.shutdownHook srv.Shutdowns srv []).srv.HttpServer = none
        then some Panic.nilHttpServer else none) ∧
    (Shutdown H srv).srv = (runSrvHooks H Event.shutdownHook srv.Shutdowns srv []).srv := by
  unfold Shutdown
  by_cases hl : srv.Shutdowns.length > 0
  · simp only [hl, if_true, hp]
    cases hs : (runSrvHooks H Event.shutdownHook srv.Shutdowns srv []).srv.HttpServer <;>
      simp [hs]
  · have hnil : srv.Shutdowns = [] := by
      cases hsd : srv.Shutdowns with
      | nil => rfl
      | cons a b => simp [hsd] at hl
    simp only [hl, if_false]
    cases hs : srv.HttpServer <;> simp [hnil, hs, runSrvHooks, runHooks]

/-- One call of `Shutdown` whose hooks return and leave the slots alone: the hooks in
registry order, the wait, the call of `HttpServer.Shutdown`, which panics exactly when
the field, as the hooks leave it, is nil. -/
theorem shutdown_of_returning (H : Hooks) (srv : ApiServer)
    (hret : ∀ h ∈ srv.Shutdowns, Returns H.srv h) :
    (Shutdown H srv).trace =
        srv.Shutdowns.map Event.shutdownHook ++
          [Event.graceWait shutdownWait, Event.httpShutdown] ∧
      (Shutdown H srv).panicked =
        (if (afterHooks H.srv srv.Shutdowns srv).HttpServer = none
          then some Panic.nilHttpServer else none) ∧
      (Shutdown H srv).srv = afterHooks H.srv srv.Shutdowns srv := by
  have hk := runHooks_ok H.srv Event.shutdownHook srv.Shutdowns srv [] hret
  have hs := shutdown_stage_ok H srv hk.1
  simp only [runSrvHooks] at hs
  refine ⟨by simpa [hk.2.1] using hs.1, ?_, hs.2.2.trans hk.2.2⟩
  rw [hs.2.1]
  simp only [hk.2.2]

/-- One call of `Shutdown` in which the hooks before `h` return and leave the slots alone
and `h` panics: `Shutdown` ends at `h`, without the later hooks, the wait and the call of
`HttpServer.Shutdown`. -/
theorem shutdown_of_panicking (H : Hooks) (srv : ApiServer) (pre : List HookId)
    (h : HookId) (post : List HookId) (hsd : srv.Shutdowns = pre ++ h :: post)
    (hret : ∀ x ∈ pre, Returns H.srv x) (hp : AlwaysPanics H.srv h) :
    (Shutdown H srv).trace = (pre ++ [h]).map Event.shutdownHook ∧
      (Shutdown H srv).panicked = some (Panic.hook h) := by
  have hk := runHooks_panic H.srv Event.shutdownHook pre h post srv [] hret hp
  have hs := shutdown_stage_panic H srv (Panic.hook h) (by rw [hsd]; exact hk.1)
  refine ⟨?_, hs.2.1⟩
  rw [hs.1, hsd]
  simpa [runSrvHooks] using hk.2

end Server
namespace Server

open Backend

/-- A hook that returns and overwrites the slot after its own makes `Shutdown` call what it
wrote there: the loop reads each slot when its turn comes. -/
theorem shutdown_reads_each_slot_at_its_turn :
    (Shutdown (overwriteNextAt 1 9) ([[1], [2, 3]].foldl RegisterShutdown servingServer)).trace =
        [Event.shutdownHook 1, Event.shutdownHook 9, Event.shutdownHook 3,
         Event.graceWait 1000, Event.httpShutdown] ∧
      (Shutdown (overwriteNextAt 1 9)
        ([[1], [2, 3]].foldl RegisterShutdown servingServer)).srv.Shutdowns = [1, 9, 3] := by
  decide

/-- In the trace of one complete `Shutdown`, a hook occurs as often as in the registry. -/
theorem count_shutdownHook_block (l : List HookId) (h : HookId) :
    (l.map Event.shutdownHook ++
      [Event.graceWait shutdownWait, Event.httpShutdown]).count (Event.shutdownHook h) =
      l.count h := by
  induction l with
  | nil => simp [List.count_cons]
  | cons a t ih =>
    simp only [List.map_cons, List.cons_append, List.count_cons, ih]
    by_cases hah : a = h <;> simp [hah]

/-- C1 (as amended): for every server and every sequence of `RegisterShutdown` calls, with
H1..Hn the hooks of the registry after the calls, (a) if every hook returns when it is
called and does not write into the slots the loop has still to read, one call of
`Shutdown` executes exactly H1..Hn, each once, in registration order, whatever else the
hooks do to the server, then waits `shutdownWait` (also with no hook registered), and only
then calls `srv.HttpServer.Shutdown`, a call that panics exactly when the field, as the
hooks leave it, is nil; (b) if the hooks before some Hk return and leave those slots alone
and Hk panics, `Shutdown` ends at Hk: H1..Hk have been called, in order, and the later
hooks, the wait and the call of `srv.HttpServer.Shutdown` are skipped. -/
theorem shutdown_runs_hooks_in_order_then_waits_then_closes (H : Hooks) (srv : ApiServer)
    (regs : List (List HookId)) :
    ((∀ h ∈ srv.Shutdowns ++ regs.flatten, Returns H.srv h) →
      (Shutdown H (regs.foldl RegisterShutdown srv)).trace =
        (srv.Shutdowns ++ regs.flatten).map Event.shutdownHook ++
          [Event.graceWait shutdownWait, Event.httpShutdown] ∧
      (Shutdown H (regs.foldl RegisterShutdown srv)).panicked =
        (if (afterHooks H.srv (srv.Shutdowns ++ regs.flatten)
              (regs.foldl RegisterShutdown srv)).HttpServer = none
          then some Panic.nilHttpServer else none)) ∧
    (∀ (pre : List HookId) (h : HookId) (post : List HookId),
      srv.Shutdowns ++ regs.flatten = pre ++ h :: post →
      (∀ x ∈ pre, Returns H.srv x) → AlwaysPanics H.srv h →
      (Shutdown H (regs.foldl RegisterShutdown srv)).trace =
        (pre ++ [h]).map Event.shutdownHook ∧
      (Shutdown H (regs.foldl RegisterShutdown srv)).panicked = some (Panic.hook h)) := by
  have hreg := (registerShutdown_foldl regs srv).1
  constructor
  · intro hret
    have hmain := shutdown_of_returning H (regs.foldl RegisterShutdown srv)
      (by rw [hreg]; exact hret)
    rw [hreg] at hmain
    exact ⟨hmain.1, hmain.2.1⟩
  · intro pre h post hsplit hret hp
    exact shutdown_of_panicking H (regs.foldl RegisterShutdown srv) pre h post
      (by rw [hreg]; exact hsplit) hret hp

/-- C1, an instance: three hooks registered in two calls on a serving server; with all of
them returning the whole sequence is run, with hook 2 panicking `Shutdown` ends there. -/
theorem shutdown_runs_hooks_in_order_witness :
    ((∀ h ∈ servingServer.Shutdowns ++ [[1], [2, 3]].flatten, Returns quietHooks.srv h) ∧
      (Shutdown quietHooks ([[1], [2, 3]].foldl RegisterShutdown servingServer)).trace =
        [Event.shutdownHook 1, Event.shutdownHook 2, Event.shutdownHook 3,
         Event.graceWait 1000, Event.httpShutdown] ∧
      (Shutdown quietHooks ([[1], [2, 3]].foldl RegisterShutdown servingServer)).panicked =
        none) ∧
    ((∀ x ∈ [1], Returns (panicAt 2).srv x) ∧ AlwaysPanics (panicAt 2).srv 2) ∧
      (Shutdown (panicAt 2) ([[1], [2, 3]].foldl RegisterShutdown servingServer)).trace =
        [Event.shutdownHook 1, Event.shutdownHook 2] ∧
      (Shutdown (panicAt 2) ([[1], [2, 3]].foldl RegisterShutdown servingServer)).panicked =
        some (Panic.hook 2) :=
  have h1 := (shutdown_runs_hooks_in_order_then_waits_then_closes quietHooks servingServer
    [[1], [2, 3]]).1 (fun _ _ _ _ => ⟨rfl, rfl⟩)
  have hpre : ∀ x ∈ [1], Returns (panicAt 2).srv x := by
    intro x hx s r
    have hx1 : x = 1 := by simpa using hx
    subst hx1
    exact ⟨rfl, rfl⟩
  have h2 := (shutdown_runs_hooks_in_order_then_waits_then_closes (panicAt 2) servingServer
    [[1], [2, 3]]).2 [1] 2 [3] rfl hpre (fun _ _ => rfl)
  ⟨⟨fun _ _ _ _ => ⟨rfl, rfl⟩, h1.1.trans (by decide), h1.2.trans (by decide)⟩,
   ⟨hpre, fun _ _ => rfl⟩, h2.1, h2.2⟩

/-- C1, the claim as stated fails: with hooks 1, 2, 3 registered and hook 2 panicking,
`Shutdown` runs hooks 1 and 2 and stops, so hook 3, the wait and the listener shutdown do
not happen, while with hook 2 returning all three run: whether hook 3 is executed depends
on the outcome of hook 2. -/
theorem shutdown_hook_panic_skips_later_hooks :
    (Shutdown (panicAt 2) ([[1], [2, 3]].foldl RegisterShutdown servingServer)).trace =
        [Event.shutdownHook 1, Event.shutdownHook 2] ∧
      (Shutdown (panicAt 2) ([[1], [2, 3]].foldl RegisterShutdown servingServer)).panicked =
        some (Panic.hook 2) ∧
      (Shutdown quietHooks ([[1], [2, 3]].foldl RegisterShutdown servingServer)).trace =
        [Event.shutdownHook 1, Event.shutdownHook 2, Event.shutdownHook 3,
         Event.graceWait 1000, Event.httpShutdown] := by
  decide

/-- A call of `Shutdown` whose hooks return and leave the shutdown registry, its slots and
the `HttpServer` field alone leaves the registry and the field alone. -/
theorem shutdown_keeps (H : Hooks) (srv : ApiServer)
    (hret : ∀ h ∈ srv.Shutdowns, ∀ s r, (H.srv h s r).panics = false)
    (hkeep : ∀ h ∈ srv.Shutdowns, ∀ s r, (H.srv h s r).srv.Shutdowns = s.Shutdowns ∧
        (H.srv h s r).slots = r ∧ (H.srv h s r).srv.HttpServer = s.HttpServer) :
    (∀ h ∈ srv.Shutdowns, Returns H.srv h) ∧
    (Shutdown H srv).srv.Shutdowns = srv.Shutdowns ∧
      (Shutdown H srv).srv.HttpServer = srv.HttpServer := by
  have hr : ∀ h ∈ srv.Shutdowns, Returns H.srv h :=
    fun h hh s r => ⟨hret h hh s r, (hkeep h hh s r).2.1⟩
  have hs := (shutdown_of_returning H srv hr).2.2
  refine ⟨hr, ?_, ?_⟩
  · rw [hs]
    exact afterHooks_keep (fun s => s.Shutdowns) H.srv srv.Shutdowns srv
      (fun h hh s r => (hkeep h hh s r).1)
  · rw [hs]
    exact afterHooks_keep (fun s => s.HttpServer) H.srv srv.Shutdowns srv
      (fun h hh s r => (hkeep h hh s r).2.2)

/-- C2 (as amended): `Shutdown` keeps no record of having run.  For every server whose
`HttpServer` is set and whose registered hooks return and leave the shutdown registry
(the slice and the slots behind it) and the `HttpServer` field alone, calling `Shutdown`
N times in a row runs the whole sequence (hooks in order, wait, listener shutdown) N
times, so each hook is executed N times its number of registrations, and no call
panics. -/
theorem shutdown_repeated_runs_hooks_every_time (H : Hooks) (N : Nat) :
    ∀ srv : ApiServer,
    (∀ h ∈ srv.Shutdowns, ∀ s r, (H.srv h s r).panics = false) →
    (∀ h ∈ srv.Shutdowns, ∀ s r, (H.srv h s r).srv.Shutdowns = s.Shutdowns ∧
        (H.srv h s r).slots = r ∧ (H.srv h s r).srv.HttpServer = s.HttpServer) →
    srv.HttpServer ≠ none →
    (shutdownTimes H N srv).trace =
        (List.replicate N (srv.Shutdowns.map Event.shutdownHook ++
          [Event.graceWait shutdownWait, Event.httpShutdown])).flatten ∧
      (shutdownTimes H N srv).panicked = none ∧
      ∀ h, (shutdownTimes H N srv).trace.count (Event.shutdownHook h) =
        N * srv.Shutdowns.count h := by
  induction N with
  | zero => intro srv _ _ _; simp [shutdownTimes]
  | succ n ih =>
    intro srv hret hkeep hhttp
    have h2 := shutdown_keeps H srv hret hkeep
    have h1 := shutdown_of_returning H srv h2.1
    have hp : (Shutdown H srv).panicked = none := by
      rw [h1.2.1, ← h1.2.2, h2.2.2]; simp [hhttp]
    have h3 := ih (Shutdown H srv).srv (by rw [h2.2.1]; exact hret)
      (by rw [h2.2.1]; exact hkeep) (by rw [h2.2.2]; exact hhttp)
    rw [h2.2.1] at h3
    have htr : (shutdownTimes H (n + 1) srv).trace =
        (Shutdown H srv).trace ++ (shutdownTimes H n (Shutdown H srv).srv).trace := by
      simp [shutdownTimes, hp]
    have hpn : (shutdownTimes H (n + 1) srv).panicked =
        (shutdownTimes H n (Shutdown H srv).srv).panicked := by
      simp [shutdownTimes, hp]
    refine ⟨?_, ?_, ?_⟩
    · rw [htr, h1.1, h3.1]; simp [List.replicate_succ]
    · rw [hpn]; exact h3.2.1
    · intro h
      rw [htr, List.count_append, h3.2.2 h, h1.1, count_shutdownHook_block]
      ring

/-- C2, an instance: one hook, three calls of `Shutdown`. -/
theorem shutdown_repeated_witness :
    ((∀ h ∈ (RegisterShutdown servingServer [7]).Shutdowns, ∀ s r,
        (quietHooks.srv h s r).panics = false) ∧
      (RegisterShutdown servingServer [7]).HttpServer ≠ none) ∧
    ((shutdownTimes quietHooks 3 (RegisterShutdown servingServer [7])).trace =
        (List.replicate 3 ((RegisterShutdown servingServer [7]).Shutdowns.map Event.shutdownHook
          ++ [Event.graceWait shutdownWait, Event.httpShutdown])).flatten ∧
      (shutdownTimes quietHooks 3 (RegisterShutdown servingServer [7])).panicked = none ∧
      ∀ h, (shutdownTimes quietHooks 3 (RegisterShutdown servingServer [7])).trace.count
          (Event.shutdownHook h) = 3 * (RegisterShutdown servingServer [7]).Shutdowns.count h) :=
  ⟨⟨fun _ _ _ _ => rfl, by decide⟩,
   shutdown_repeated_runs_hooks_every_time quietHooks 3 (RegisterShutdown servingServer [7])
    (fun _ _ _ _ => rfl) (fun _ _ _ _ => ⟨rfl, rfl, rfl⟩) (by decide)⟩

/-- C2, the claim as stated fails: with one hook registered, two calls of `Shutdown` in a
row execute the hook twice (neither call panics, and `doneChan` is never touched). -/
theorem shutdown_twice_runs_hook_twice :
    (shutdownTimes quietHooks 2 (RegisterShutdown servingServer [7])).trace =
        [Event.shutdownHook 7, Event.graceWait 1000, Event.httpShutdown,
         Event.shutdownHook 7, Event.graceWait 1000, Event.httpShutdown] ∧
      (shutdownTimes quietHooks 2 (RegisterShutdown servingServer [7])).trace.count
        (Event.shutdownHook 7) = 2 ∧
      (shutdownTimes quietHooks 2 (RegisterShutdown servingServer [7])).panicked = none ∧
      (shutdownTimes quietHooks 2 (RegisterShutdown servingServer [7])).srv.doneChan = none := by
  decide

end Server

/-! ## ListenAndServe -/

namespace Server

open Backend

/-- The result of the Service loop of `ListenAndServe`. -/
theorem listenAndServe_services_panic (H : Hooks) (E : ServeEnv) (srv : ApiServer) (p : Panic)
    (h1 : (runSrvHooks H Event.service srv.Services
      { srv with Engine := some newEngine } []).panicked = some p) :
    (ListenAndServe H E srv).run.trace = (runSrvHooks H Event.service srv.Services
      { srv with Engine := some newEngine } []).trace ∧
    (ListenAndServe H E srv).run.panicked = some p := by
  unfold ListenAndServe
  simp [h1]

/-- The result of `ListenAndServe` when the Service loop ends without a panic and the
Middleware loop ends in one. -/
theorem listenAndServe_middlewares_panic (H : Hooks) (E : ServeEnv) (srv : ApiServer)
    (r1 : Run) (p : Panic)
    (hr1 : runSrvHooks H Event.service srv.Services { srv with Engine := some newEngine } []
      = r1)
    (h1 : r1.panicked = none)
    (h2 : (runEngHooks H Event.middleware r1.srv.Middlewares r1.srv r1.trace).panicked
      = some p) :
    (ListenAndServe H E srv).run.trace =
      (runEngHooks H Event.middleware r1.srv.Middlewares r1.srv r1.trace).trace ∧
    (ListenAndServe H E srv).run.panicked = some p := by
  unfold ListenAndServe
  simp [hr1, h1, h2]

/-- The result of `ListenAndServe` when the Service and Middleware loops end without a
panic: the Router loop, then the `http.Server`, the log line and the listener. -/
theorem listenAndServe_routers (H : Hooks) (E : ServeEnv) (srv : ApiServer)
    (r1 r2 r3 : Run)
    (hr1 : runSrvHooks H Event.service srv.Services { srv with Engine := some newEngine } []
      = r1)
    (hr2 : runEngHooks H Event.middleware r1.srv.Middlewares r1.srv r1.trace = r2)
    (hr3 : runEngHooks H Event.router r2.srv.Routers r2.srv r2.trace = r3)
    (h1 : r1.panicked = none) (h2 : r2.panicked = none) :
    (∀ p, r3.panicked = some p →
      (ListenAndServe H E srv).run.trace = r3.trace ∧
      (ListenAndServe H E srv).run.panicked = some p) ∧
    (r3.panicked = none → E.loggerSet = false →
      (ListenAndServe H E srv).run.trace = r3.trace ∧
      (ListenAndServe H E srv).run.panicked = some Panic.nilLogger) ∧
    (r3.panicked = none → E.loggerSet = true →
      (ListenAndServe H E srv).run.trace = r3.trace ++
        [Event.logInfo ("api-server port run on " ++ r3.srv.Addr ++ " "),
         Event.httpListen r3.srv.Addr] ∧
      (ListenAndServe H E srv).run.panicked = none ∧
      (ListenAndServe H E srv).run.srv.HttpServer = some (mkHttpServer r3.srv)) := by
  refine ⟨?_, ?_, ?_⟩
  · intro p h3
    unfold ListenAndServe
    simp [hr1, h1, hr2, h2, hr3, h3]
  · intro h3 hl
    unfold ListenAndServe
    simp [hr1, h1, hr2, h2, hr3, h3, hl]
  · intro h3 hl
    unfold ListenAndServe
    simp only [hr1, h1, hr2, h2, hr3, h3, hl, if_true]
    cases E.listen (mkHttpServer r3.srv) <;> simp

end Server

namespace Server

open Backend

/-- The Service loop of `ListenAndServe` when the Service callbacks return, leave the
slots alone and leave the two registries still to be walked alone. -/
theorem services_stage (H : Hooks) (srv : ApiServer) (r1 : Run)
    (hr1 : runSrvHooks H Event.service srv.Services { srv with Engine := some newEngine } []
      = r1)
    (hS : ∀ h ∈ srv.Services, Returns H.srv h ∧ Keeps (fun s => s.Middlewares) H.srv h ∧
      Keeps (fun s => s.Routers) H.srv h) :
    r1.panicked = none ∧ r1.trace = srv.Services.map Event.service ∧
      r1.srv = afterHooks H.srv srv.Services { srv with Engine := some newEngine } ∧
      r1.srv.Middlewares = srv.Middlewares ∧ r1.srv.Routers = srv.Routers := by
  subst hr1
  have k := runHooks_ok H.srv Event.service srv.Services
    { srv with Engine := some newEngine } [] (fun h hh => (hS h hh).1)
  refine ⟨k.1, by simpa using k.2.1, k.2.2, ?_, ?_⟩
  · rw [runSrvHooks, k.2.2]
    exact afterHooks_keep (fun s => s.Middlewares) H.srv srv.Services
      { srv with Engine := some newEngine } (fun h hh => (hS h hh).2.1)
  · rw [runSrvHooks, k.2.2]
    exact afterHooks_keep (fun s => s.Routers) H.srv srv.Services
      { srv with Engine := some newEngine } (fun h hh => (hS h hh).2.2)

/-- A loop over `func(*gin.Engine)` callbacks that return and leave the slots alone. -/
theorem engine_stage (H : Hooks) (ev : HookId → Event) (r r2 : Run) (l : List HookId)
    (hr2 : runEngHooks H ev l r.srv r.trace = r2) (hl : ∀ h ∈ l, Returns H.eng h) :
    r2.panicked = none ∧ r2.trace = r.trace ++ l.map ev ∧ r2.srv = afterHooks H.eng l r.srv := by
  subst hr2
  exact runHooks_ok H.eng ev l r.srv r.trace hl

/-- A loop over `func(*gin.Engine)` callbacks that ends at a panicking callback. -/
theorem engine_stage_panic (H : Hooks) (ev : HookId → Event) (r r2 : Run)
    (l pre : List HookId) (h : HookId) (post : List HookId)
    (hr2 : runEngHooks H ev l r.srv r.trace = r2) (hl : l = pre ++ h :: post)
    (hpre : ∀ x ∈ pre, Returns H.eng x) (hp : AlwaysPanics H.eng h) :
    r2.panicked = some (Panic.hook h) ∧ r2.trace = r.trace ++ (pre ++ [h]).map ev := by
  subst hr2 hl
  exact runHooks_panic H.eng ev pre h post r.srv r.trace hpre hp

/-- The Service and the Middleware loop of `ListenAndServe` when the callbacks of both
return, leave the slots alone and leave the registries still to be walked alone. -/
theorem services_middlewares_stage (H : Hooks) (srv : ApiServer) (r1 r2 : Run)
    (hr1 : runSrvHooks H Event.service srv.Services { srv with Engine := some newEngine } []
      = r1)
    (hr2 : runEngHooks H Event.middleware r1.srv.Middlewares r1.srv r1.trace = r2)
    (hS : ∀ h ∈ srv.Services, Returns H.srv h ∧ Keeps (fun s => s.Middlewares) H.srv h ∧
      Keeps (fun s => s.Routers) H.srv h)
    (hM : ∀ h ∈ srv.Middlewares, Returns H.eng h ∧ Keeps (fun s => s.Routers) H.eng h) :
    r1.panicked = none ∧ r2.panicked = none ∧
      r2.trace = srv.Services.map Event.service ++ srv.Middlewares.map Event.middleware ∧
      r2.srv = afterHooks H.eng srv.Middlewares
        (afterHooks H.srv srv.Services { srv with Engine := some newEngine }) ∧
      r2.srv.Routers = srv.Routers := by
  have k1 := services_stage H srv r1 hr1 hS
  rw [k1.2.2.2.1] at hr2
  have k2 := engine_stage H Event.middleware r1 r2 srv.Middlewares hr2
    (fun h hh => (hM h hh).1)
  refine ⟨k1.1, k2.1, by rw [k2.2.1, k1.2.1], by rw [k2.2.2, k1.2.2.1], ?_⟩
  rw [k2.2.2, afterHooks_keep (fun s => s.Routers) H.eng srv.Middlewares r1.srv
    (fun h hh => (hM h hh).2)]
  exact k1.2.2.2.2

/-- The stages of `ListenAndServe` on a server whose registries hold `S`, `M` and `R`. -/
theorem listenAndServe_stages (H : Hooks) (E : ServeEnv) (srv : ApiServer)
    (S M R : List HookId) (hs : srv.Services = S) (hm : srv.Middlewares = M)
    (hr : srv.Routers = R) :
    ((∀ h ∈ S, Returns H.srv h ∧ Keeps (fun s => s.Middlewares) H.srv h ∧
          Keeps (fun s => s.Routers) H.srv h) →
      (∀ h ∈ M, Returns H.eng h ∧ Keeps (fun s => s.Routers) H.eng h) →
      (∀ h ∈ R, Returns H.eng h) →
      (E.loggerSet = true →
        (ListenAndServe H E srv).run.trace =
          S.map Event.service ++ M.map Event.middleware ++ R.map Event.router ++
            [Event.logInfo ("api-server port run on " ++
                (afterStartupHooks H S M R srv).Addr ++ " "),
             Event.httpListen (afterStartupHooks H S M R srv).Addr] ∧
        (ListenAndServe H E srv).run.panicked = none) ∧
      (E.loggerSet = false →
        (ListenAndServe H E srv).run.trace =
          S.map Event.service ++ M.map Event.middleware ++ R.map Event.router ∧
        (ListenAndServe H E srv).run.panicked = some Panic.nilLogger)) ∧
    (∀ (pre : List HookId) (h : HookId) (post : List HookId), S = pre ++ h :: post →
      (∀ x ∈ pre, Returns H.srv x) → AlwaysPanics H.srv h →
      (ListenAndServe H E srv).run.trace = (pre ++ [h]).map Event.service ∧
      (ListenAndServe H E srv).run.panicked = some (Panic.hook h)) ∧
    ((∀ h ∈ S, Returns H.srv h ∧ Keeps (fun s => s.Middlewares) H.srv h ∧
          Keeps (fun s => s.Routers) H.srv h) →
      ∀ (pre : List HookId) (h : HookId) (post : List HookId), M = pre ++ h :: post →
      (∀ x ∈ pre, Returns H.eng x) → AlwaysPanics H.eng h →
      (ListenAndServe H E srv).run.trace =
        S.map Event.service ++ (pre ++ [h]).map Event.middleware ∧
      (ListenAndServe H E srv).run.panicked = some (Panic.hook h)) ∧
    ((∀ h ∈ S, Returns H.srv h ∧ Keeps (fun s => s.Middlewares) H.srv h ∧
          Keeps (fun s => s.Routers) H.srv h) →
      (∀ h ∈ M, Returns H.eng h ∧ Keeps (fun s => s.Routers) H.eng h) →
      ∀ (pre : List HookId) (h : HookId) (post : List HookId), R = pre ++ h :: post →
      (∀ x ∈ pre, Returns H.eng x) → AlwaysPanics H.eng h →
      (ListenAndServe H E srv).run.trace =
        S.map Event.service ++ M.map Event.middleware ++ (pre ++ [h]).map Event.router ∧
      (ListenAndServe H E srv).run.panicked = some (Panic.hook h)) := by
  subst hs hm hr
  obtain ⟨r1, hr1⟩ : ∃ r1, runSrvHooks H Event.service srv.Services
    { srv with Engine := some newEngine } [] = r1 := ⟨_, rfl⟩
  obtain ⟨r2, hr2⟩ : ∃ r2, runEngHooks H Event.middleware r1.srv.Middlewares r1.srv
    r1.trace = r2 := ⟨_, rfl⟩
  obtain ⟨r3, hr3⟩ : ∃ r3, runEngHooks H Event.router r2.srv.Routers r2.srv
    r2.trace = r3 := ⟨_, rfl⟩
  refine ⟨?_, ?_, ?_, ?_⟩
  · intro hS hM hR
    have k2 := services_middlewares_stage H srv r1 r2 hr1 hr2 hS hM
    have hl := listenAndServe_routers H E srv r1 r2 r3 hr1 hr2 hr3 k2.1 k2.2.1
    rw [k2.2.2.2.2] at hr3
    have k3 := engine_stage H Event.router r2 r3 srv.Routers hr3 hR
    have k3s : r3.srv = afterStartupHooks H srv.Services srv.Middlewares srv.Routers srv := by
      rw [k3.2.2, k2.2.2.2.1, afterStartupHooks]
    have k3t : r3.trace = srv.Services.map Event.service ++
        srv.Middlewares.map Event.middleware ++ srv.Routers.map Event.router := by
      rw [k3.2.1, k2.2.2.1]
    constructor
    · intro hlog
      have h := hl.2.2 k3.1 hlog
      rw [k3s, k3t] at h
      exact ⟨h.1, h.2.1⟩
    · intro hlog
      have h := hl.2.1 k3.1 hlog
      rw [k3t] at h
      exact h
  · intro pre h post hsplit hpre hp
    have k := runHooks_panic H.srv Event.service pre h post
      { srv with Engine := some newEngine } [] hpre hp
    have hk1 : r1.panicked = some (Panic.hook h) := by
      rw [← hr1, runSrvHooks]
      simpa only [hsplit] using k.1
    have hk2 : r1.trace = (pre ++ [h]).map Event.service := by
      rw [← hr1, runSrvHooks]
      simpa [hsplit] using k.2
    have hl := listenAndServe_services_panic H E srv (Panic.hook h) (by rw [hr1]; exact hk1)
    rw [hr1] at hl
    exact ⟨hl.1.trans hk2, hl.2⟩
  · intro hS pre h post hsplit hpre hp
    have k1 := services_stage H srv r1 hr1 hS
    rw [k1.2.2.2.1] at hr2
    have k2 := engine_stage_panic H Event.middleware r1 r2 srv.Middlewares pre h post hr2
      hsplit hpre hp
    rw [← k1.2.2.2.1] at hr2
    have hl := listenAndServe_middlewares_panic H E srv r1 (Panic.hook h) hr1 k1.1
      (by rw [hr2]; exact k2.1)
    rw [hr2] at hl
    exact ⟨by rw [hl.1, k2.2, k1.2.1], hl.2⟩
  · intro hS hM pre h post hsplit hpre hp
    have k2 := services_middlewares_stage H srv r1 r2 hr1 hr2 hS hM
    have hl := listenAndServe_routers H E srv r1 r2 r3 hr1 hr2 hr3 k2.1 k2.2.1
    rw [k2.2.2.2.2] at hr3
    have k3 := engine_stage_panic H Event.router r2 r3 srv.Routers pre h post hr3
      hsplit hpre hp
    have h := hl.1 (Panic.hook h) k3.1
    exact ⟨by rw [h.1, k3.2, k2.2.2.1], h.2⟩

end Server

namespace Server

open Backend

/-- C3 (as amended): for every server and every sequence of registration calls, with S, M
and R the Service, Middleware and Router hooks of the registries after the calls (the
arguments of the calls in call order and argument order, nothing deduplicated or removed):
(1) if every hook returns when it is called and does not write into the slots its loop has
still to read, the Service hooks leave the Middleware and the Router registry alone and
the Middleware hooks leave the Router registry alone, then `ListenAndServe` runs all of S,
then all of M, then all of R, each in registration order, and then, if the process-wide
logger exists, logs the address and starts the HTTP listener on it, and if the logger does
not exist, panics at the log call without starting the listener; (2) if the hooks before
some hook of S return and leave the slots alone and that hook panics, `ListenAndServe`
ends at that hook, without the later hooks and without the listener; (3) and (4) the same
for a hook of M after all of S, and for a hook of R after all of S and all of M. -/
theorem listenAndServe_runs_services_middlewares_routers_then_listens (H : Hooks)
    (E : ServeEnv) (srv : ApiServer) (regs : List Registration) :
    ((∀ h ∈ srv.Services ++ servicesOf regs,
          Returns H.srv h ∧ Keeps (fun s => s.Middlewares) H.srv h ∧
          Keeps (fun s => s.Routers) H.srv h) →
      (∀ h ∈ srv.Middlewares ++ middlewaresOf regs,
          Returns H.eng h ∧ Keeps (fun s => s.Routers) H.eng h) →
      (∀ h ∈ srv.Routers ++ routersOf regs, Returns H.eng h) →
      (E.loggerSet = true →
        (ListenAndServe H E (regs.foldl register srv)).run.trace =
          (srv.Services ++ servicesOf regs).map Event.service ++
            (srv.Middlewares ++ middlewaresOf regs).map Event.middleware ++
            (srv.Routers ++ routersOf regs).map Event.router ++
            [Event.logInfo ("api-server port run on " ++
                (afterStartupHooks H (srv.Services ++ servicesOf regs)
                  (srv.Middlewares ++ middlewaresOf regs) (srv.Routers ++ routersOf regs)
                  (regs.foldl register srv)).Addr ++ " "),
             Event.httpListen
                (afterStartupHooks H (srv.Services ++ servicesOf regs)
                  (srv.Middlewares ++ middlewaresOf regs) (srv.Routers ++ routersOf regs)
                  (regs.foldl register srv)).Addr] ∧
        (ListenAndServe H E (regs.foldl register srv)).run.panicked = none) ∧
      (E.loggerSet = false →
        (ListenAndServe H E (regs.foldl register srv)).run.trace =
          (srv.Services ++ servicesOf regs).map Event.service ++
            (srv.Middlewares ++ middlewaresOf regs).map Event.middleware ++
            (srv.Routers ++ routersOf regs).map Event.router ∧
        (ListenAndServe H E (regs.foldl register srv)).run.panicked =
          some Panic.nilLogger)) ∧
    (∀ (pre : List HookId) (h : HookId) (post : List HookId),
      srv.Services ++ servicesOf regs = pre ++ h :: post →
      (∀ x ∈ pre, Returns H.srv x) → AlwaysPanics H.srv h →
      (ListenAndServe H E (regs.foldl register srv)).run.trace =
        (pre ++ [h]).map Event.service ∧
      (ListenAndServe H E (regs.foldl register srv)).run.panicked = some (Panic.hook h)) ∧
    ((∀ h ∈ srv.Services ++ servicesOf regs,
          Returns H.srv h ∧ Keeps (fun s => s.Middlewares) H.srv h ∧
          Keeps (fun s => s.Routers) H.srv h) →
      ∀ (pre : List HookId) (h : HookId) (post : List HookId),
      srv.Middlewares ++ middlewaresOf regs = pre ++ h :: post →
      (∀ x ∈ pre, Returns H.eng x) → AlwaysPanics H.eng h →
      (ListenAndServe H E (regs.foldl register srv)).run.trace =
        (srv.Services ++ servicesOf regs).map Event.service ++
          (pre ++ [h]).map Event.middleware ∧
      (ListenAndServe H E (regs.foldl register srv)).run.panicked = some (Panic.hook h)) ∧
    ((∀ h ∈ srv.Services ++ servicesOf regs,
          Returns H.srv h ∧ Keeps (fun s => s.Middlewares) H.srv h ∧
          Keeps (fun s => s.Routers) H.srv h) →
      (∀ h ∈ srv.Middlewares ++ middlewaresOf regs,
          Returns H.eng h ∧ Keeps (fun s => s.Routers) H.eng h) →
      ∀ (pre : List HookId) (h : HookId) (post : List HookId),
      srv.Routers ++ routersOf regs = pre ++ h :: post →
      (∀ x ∈ pre, Returns H.eng x) → AlwaysPanics H.eng h →
      (ListenAndServe H E (regs.foldl register srv)).run.trace =
        (srv.Services ++ servicesOf regs).map Event.service ++
          (srv.Middlewares ++ middlewaresOf regs).map Event.middleware ++
          (pre ++ [h]).map Event.router ∧
      (ListenAndServe H E (regs.foldl register srv)).run.panicked = some (Panic.hook h)) :=
  listenAndServe_stages H E (regs.foldl register srv) _ _ _ (register_foldl regs srv).1
    (register_foldl regs srv).2.1 (register_foldl regs srv).2.2.1

/-- C3, an instance: the sample registration calls on a fresh server.  With callbacks that
return, the three categories run one after the other, each in registration order with the
repeated router kept, and the listener starts last; with the service hook 3 panicking,
`ListenAndServe` ends at it. -/
theorem listenAndServe_order_witness :
    (((∀ h ∈ bareServer.Services ++ servicesOf sampleRegs,
          Returns quietHooks.srv h ∧ Keeps (fun s => s.Middlewares) quietHooks.srv h ∧
          Keeps (fun s => s.Routers) quietHooks.srv h) ∧
        (∀ h ∈ bareServer.Middlewares ++ middlewaresOf sampleRegs,
          Returns quietHooks.eng h ∧ Keeps (fun s => s.Routers) quietHooks.eng h) ∧
        (∀ h ∈ bareServer.Routers ++ routersOf sampleRegs, Returns quietHooks.eng h) ∧
        sampleEnv.loggerSet = true) ∧
      (ListenAndServe quietHooks sampleEnv (sampleRegs.foldl register bareServer)).run.trace =
        [Event.service 2, Event.service 3, Event.service 6, Event.middleware 4,
         Event.router 1, Event.router 5, Event.router 1,
         Event.logInfo "api-server port run on :8080 ", Event.httpListen ":8080"] ∧
      (ListenAndServe quietHooks sampleEnv
        (sampleRegs.foldl register bareServer)).run.panicked = none) ∧
    ((bareServer.Services ++ servicesOf sampleRegs = [2] ++ 3 :: [6] ∧
        (∀ x ∈ [2], Returns (panicAt 3).srv x) ∧ AlwaysPanics (panicAt 3).srv 3) ∧
      (ListenAndServe (panicAt 3) sampleEnv (sampleRegs.foldl register bareServer)).run.trace =
        [Event.service 2, Event.service 3] ∧
      (ListenAndServe (panicAt 3) sampleEnv
        (sampleRegs.foldl register bareServer)).run.panicked = some (Panic.hook 3)) :=
  have hS : ∀ h ∈ bareServer.Services ++ servicesOf sampleRegs,
      Returns quietHooks.srv h ∧ Keeps (fun s => s.Middlewares) quietHooks.srv h ∧
      Keeps (fun s => s.Routers) quietHooks.srv h :=
    fun _ _ => ⟨fun _ _ => ⟨rfl, rfl⟩, fun _ _ => rfl, fun _ _ => rfl⟩
  have hM : ∀ h ∈ bareServer.Middlewares ++ middlewaresOf sampleRegs,
      Returns quietHooks.eng h ∧ Keeps (fun s => s.Routers) quietHooks.eng h :=
    fun _ _ => ⟨fun _ _ => ⟨rfl, rfl⟩, fun _ _ => rfl⟩
  have hR : ∀ h ∈ bareServer.Routers ++ routersOf sampleRegs, Returns quietHooks.eng h :=
    fun _ _ _ _ => ⟨rfl, rfl⟩
  have h1 := ((listenAndServe_runs_services_middlewares_routers_then_listens quietHooks
    sampleEnv bareServer sampleRegs).1 hS hM hR).1 rfl
  have hpre : ∀ x ∈ [2], Returns (panicAt 3).srv x := by
    intro x hx s r
    have hx2 : x = 2 := by simpa using hx
    subst hx2
    exact ⟨rfl, rfl⟩
  have h2 := (listenAndServe_runs_services_middlewares_routers_then_listens (panicAt 3)
    sampleEnv bareServer sampleRegs).2.1 [2] 3 [6] rfl hpre (fun _ _ => rfl)
  ⟨⟨⟨hS, hM, hR, rfl⟩, h1.1.trans (by decide), h1.2⟩,
   ⟨rfl, hpre, fun _ _ => rfl⟩, h2.1.trans (by decide), h2.2⟩

/-- C3, the claim as stated fails, in three ways, each on the sample registration calls
(Service hooks 2, 3, 6, Middleware hook 4, Router hooks 1, 5, 1).  With Service hook 3
panicking, `ListenAndServe` ends after the hooks 2 and 3: the registered hooks 6, 4, 1, 5,
1 are not run and the listener is not started.  With no process-wide logger, all hooks run
and `ListenAndServe` panics at the log call: the listener is not started.  With Service
hook 2 emptying `srv.Routers`, the listener is started although none of the registered
Router hooks has run. -/
theorem listenAndServe_does_not_always_run_all_hooks_and_listen :
    ((ListenAndServe (panicAt 3) sampleEnv (sampleRegs.foldl register bareServer)).run.trace =
        [Event.service 2, Event.service 3] ∧
      (ListenAndServe (panicAt 3) sampleEnv
        (sampleRegs.foldl register bareServer)).run.panicked = some (Panic.hook 3)) ∧
    ((ListenAndServe quietHooks ⟨false, fun _ => ListenResult.serverClosed⟩
        (sampleRegs.foldl register bareServer)).run.trace =
        [Event.service 2, Event.service 3, Event.service 6, Event.middleware 4,
         Event.router 1, Event.router 5, Event.router 1] ∧
      (ListenAndServe quietHooks ⟨false, fun _ => ListenResult.serverClosed⟩
        (sampleRegs.foldl register bareServer)).run.panicked = some Panic.nilLogger) ∧
    ((sampleRegs.foldl register bareServer).Routers = [1, 5, 1] ∧
      (ListenAndServe (dropRoutersAt 2) sampleEnv
        (sampleRegs.foldl register bareServer)).run.trace =
        [Event.service 2, Event.service 3, Event.service 6, Event.middleware 4,
         Event.logInfo "api-server port run on :8080 ", Event.httpListen ":8080"] ∧
      (ListenAndServe (dropRoutersAt 2) sampleEnv
        (sampleRegs.foldl register bareServer)).run.panicked = none) := by
  decide

end Server

/-! ## Configuration loading -/

namespace Platform

/-- The file and the config type `LoadConfig` hands to viper are the path its loop
selects and the extension helper applied to that path, whether the read succeeds or not. -/
theorem loadConfig_file (E : ConfEnv) (st : ConfState) (env fileName : String) :
    (LoadConfig E st env fileName).file =
        selectPath E (nameSpace ++ "/" ++ env) fileName autoLoadLocalConfigs "" ∧
      (LoadConfig E st env fileName).type =
        E.Ext (selectPath E (nameSpace ++ "/" ++ env) fileName autoLoadLocalConfigs "") := by
  simp only [LoadConfig]
  split <;> exact ⟨rfl, rfl⟩

/-- The selection loop returns the candidate of the first extension, in list order, whose
candidate exists. -/
theorem selectPath_find (E : ConfEnv) (dir fileName : String) (l : List String) :
    ∀ (p0 ext : String),
      l.find? (fun e => E.Exists (pathJoin dir (fileName ++ e))) = some ext →
      selectPath E dir fileName l p0 = pathJoin dir (fileName ++ ext) := by
  induction l with
  | nil => intro p0 ext h; simp at h
  | cons e es ih =>
    intro p0 ext h
    by_cases he : E.Exists (pathJoin dir (fileName ++ e)) = true
    · simp only [List.find?, he] at h
      cases h
      simp [selectPath, he]
    · simp only [List.find?, he] at h
      simp only [selectPath, he]
      exact ih _ ext h

/-- C4: for every environment, base name and file system, the file `LoadConfig` hands to
viper is the candidate of the first extension in the order .json, .yaml, .ini whose
candidate exists (so .json wins over .yaml and .ini, and .yaml over .ini), that file
exists, and the config type set on viper is the extension helper applied to the selected
file. -/
theorem loadConfig_selects_first_existing_candidate (E : ConfEnv) (st : ConfState)
    (env fileName : String) :
    (∀ ext, autoLoadLocalConfigs.find? (fun e => E.Exists (candidate env fileName e)) = some ext →
      (LoadConfig E st env fileName).file = candidate env fileName ext ∧
      E.Exists (LoadConfig E st env fileName).file = true) ∧
    (E.Exists (candidate env fileName ".json") = true →
      (LoadConfig E st env fileName).file = candidate env fileName ".json") ∧
    (E.Exists (candidate env fileName ".json") = false →
      E.Exists (candidate env fileName ".yaml") = true →
      (LoadConfig E st env fileName).file = candidate env fileName ".yaml") ∧
    (E.Exists (candidate env fileName ".json") = false →
      E.Exists (candidate env fileName ".yaml") = false →
      E.Exists (candidate env fileName ".ini") = true →
      (LoadConfig E st env fileName).file = candidate env fileName ".ini") ∧
    (LoadConfig E st env fileName).type = E.Ext (LoadConfig E st env fileName).file := by
  have hf := loadConfig_file E st env fileName
  refine ⟨?_, ?_, ?_, ?_, ?_⟩
  · intro ext h
    have hsel := selectPath_find E (nameSpace ++ "/" ++ env) fileName autoLoadLocalConfigs "" ext h
    have hx := List.find?_some h
    rw [hf.1, hsel]
    exact ⟨rfl, by simpa [candidate] using hx⟩
  · intro hj
    rw [hf.1]
    simp only [candidate] at hj
    simp [selectPath, autoLoadLocalConfigs, extensionJson, candidate, hj]
  · intro hj hy
    rw [hf.1]
    simp only [candidate] at hj hy
    simp [selectPath, autoLoadLocalConfigs, extensionJson, extensionYaml, candidate, hj, hy]
  · intro hj hy hi
    rw [hf.1]
    simp only [candidate] at hj hy hi
    simp [selectPath, autoLoadLocalConfigs, extensionJson, extensionYaml, extensionInI,
      candidate, hj, hy, hi]
  · rw [hf.2, hf.1]

/-- C4, an instance: with `main.yaml` and `main.ini` present and no `main.json`, the YAML
file is selected and parsed as yaml. -/
theorem loadConfig_selects_first_existing_witness :
    ((sampleConf [("conf/testing/main.ini", []),
        ("conf/testing/main.yaml", [("log.level", "info")])]).Exists
          (candidate "testing" "main" ".json") = false ∧
      (sampleConf [("conf/testing/main.ini", []),
        ("conf/testing/main.yaml", [("log.level", "info")])]).Exists
          (candidate "testing" "main" ".yaml") = true) ∧
    (LoadConfig (sampleConf [("conf/testing/main.ini", []),
        ("conf/testing/main.yaml", [("log.level", "info")])]) ConfState.init "testing"
        "main").file = "conf/testing/main.yaml" ∧
    (LoadConfig (sampleConf [("conf/testing/main.ini", []),
        ("conf/testing/main.yaml", [("log.level", "info")])]) ConfState.init "testing"
        "main").type = "yaml" :=
  have h := loadConfig_selects_first_existing_candidate
    (sampleConf [("conf/testing/main.ini", []),
      ("conf/testing/main.yaml", [("log.level", "info")])]) ConfState.init "testing" "main"
  ⟨⟨by decide, by decide⟩,
   (h.2.2.1 (by decide) (by decide)).trans (by decide), h.2.2.2.2.trans (by decide)⟩

/-- C5 (as amended): for every environment and base name such that none of the three
candidates exists, and reading a file that does not exist fails, `LoadConfig` hands the
last candidate (.ini) to viper, tries to read it and panics with the message
"Fatal error config file"; and on no input at all does `LoadConfig` return a non-nil
error. -/
theorem loadConfig_without_candidate_panics (E : ConfEnv) (st : ConfState)
    (env fileName : String)
    (hj : E.Exists (candidate env fileName ".json") = false)
    (hy : E.Exists (candidate env fileName ".yaml") = false)
    (hi : E.Exists (candidate env fileName ".ini") = false)
    (hread : ∀ p t, E.Exists p = false → E.readInConfig p t = none) :
    LoadConfig E st env fileName =
      LoadResult.panicked "Fatal error config file" (candidate env fileName ".ini")
        (E.Ext (candidate env fileName ".ini"))
        { st with stdout := st.stdout ++
          ["the path to the configuration file you are using is : " ++
            candidate env fileName ".ini"] } ∧
    ∀ (E2 : ConfEnv) (st2 : ConfState) (env2 fileName2 : String),
      (LoadConfig E2 st2 env2 fileName2).error = none := by
  have hsel : selectPath E (nameSpace ++ "/" ++ env) fileName autoLoadLocalConfigs "" =
      candidate env fileName ".ini" := by
    simp only [candidate] at hj hy hi
    simp [selectPath, autoLoadLocalConfigs, extensionJson, extensionYaml, extensionInI,
      candidate, hj, hy, hi]
  refine ⟨?_, ?_⟩
  · simp only [LoadConfig, hsel, hread _ _ hi]
  · intro E2 st2 env2 fileName2
    simp only [LoadConfig]
    split <;> rfl

/-- C5, an instance: no file at all under `conf/testing`. -/
theorem loadConfig_without_candidate_witness :
    ((sampleConf []).Exists (candidate "testing" "main" ".json") = false ∧
      (sampleConf []).Exists (candidate "testing" "main" ".yaml") = false ∧
      (sampleConf []).Exists (candidate "testing" "main" ".ini") = false) ∧
    LoadConfig (sampleConf []) ConfState.init "testing" "main" =
      LoadResult.panicked "Fatal error config file" "conf/testing/main.ini" "ini"
        ⟨[], none, [],
          ["the path to the configuration file you are using is : conf/testing/main.ini"]⟩ :=
  ⟨⟨rfl, rfl, rfl⟩,
   ((loadConfig_without_candidate_panics (sampleConf []) ConfState.init "testing" "main"
    rfl rfl rfl (fun _ _ h => by simp_all [sampleConf])).1).trans (by decide)⟩

/-- The facts about a call of `LoadConfig` that returned. -/
theorem loadConfig_returned (E : ConfEnv) (st : ConfState) (env fileName : String)
    (c : Nat) (err : Option String) (f t : String) (st1 : ConfState)
    (hload : LoadConfig E st env fileName = LoadResult.returned c err f t st1) :
    ∃ s, E.readInConfig f t = some s ∧ c = st.heap.length ∧
      st1.heap = st.heap ++ [(E.unmarshal s Config.zero).1] ∧
      st1.defaultConfig = some c ∧
      st1.watchers = st.watchers ++ [⟨f, t, s, c⟩] := by
  simp only [LoadConfig] at hload
  split at hload
  · cases hload
  · rename_i s hs
    injection hload with h1 h2 h3 h4 h5
    subst h1 h3 h4 h5
    exact ⟨s, hs, rfl, rfl, rfl, rfl⟩

/-- C10 (as amended): a call of `LoadConfig` that returns stores in `_defaultConfig` the
pointer it returns, to one `Config` object; a later change of the watched file does not
replace that pointer: the change handler decodes the settings viper then holds (the
reread ones, or the previous ones when the reread failed) into that same object, so every
holder of the pointer reads afterwards what the decoder left there, whether or not the
decoder reported an error. -/
theorem config_reload_overwrites_shared_object (E E2 : ConfEnv) (st : ConfState)
    (env fileName : String) (c : Nat) (f t : String) (st1 : ConfState)
    (hload : LoadConfig E st env fileName = LoadResult.returned c none f t st1) :
    ∃ s cfg, E.readInConfig f t = some s ∧
      GetConfigModels st1 = some c ∧
      st1.deref c = some cfg ∧
      GetConfigModels (fileChanged E2 st1 st.watchers.length) = some c ∧
      (fileChanged E2 st1 st.watchers.length).deref c =
        some (E2.unmarshal ((E2.readInConfig f t).getD s) cfg).1 := by
  obtain ⟨s, hs, hc, hheap, hdef, hw⟩ := loadConfig_returned E st env fileName c none f t st1 hload
  have hget : st1.heap[c]? = some (E.unmarshal s Config.zero).1 := by
    rw [hheap, hc]; simp
  have hwget : st1.watchers[st.watchers.length]? = some ⟨f, t, s, c⟩ := by
    rw [hw]; simp
  have hwlt : st.watchers.length < st1.watchers.length := by rw [hw]; simp
  refine ⟨s, (E.unmarshal s Config.zero).1, hs, hdef, hget, ?_, ?_⟩
  · cases hr : E2.readInConfig f t with
    | none => simp [fileChanged, onConfigChange, hwget, hr, hget, GetConfigModels, hdef]
    | some s2 =>
      simp [fileChanged, onConfigChange, hwget, hr, hget, GetConfigModels, hdef,
        List.getElem?_set, hwlt]
  · have hlt : c < st1.heap.length := by rw [hheap, hc]; simp
    cases hr : E2.readInConfig f t with
    | none =>
      simp [fileChanged, onConfigChange, hwget, hr, hget, ConfState.deref, hlt]
    | some s2 =>
      simp [fileChanged, onConfigChange, hwget, hr, hget, ConfState.deref, hlt,
        List.getElem?_set, hwlt]

/-- C10, an instance: a configuration loaded with log level "info", then the file
rewritten with log level "debug". -/
theorem config_reload_witness :
    LoadConfig (sampleConf [("conf/testing/main.json", [("log.level", "info")])])
        ConfState.init "testing" "main" =
      LoadResult.returned 0 none "conf/testing/main.json" "json"
        (LoadConfig (sampleConf [("conf/testing/main.json", [("log.level", "info")])])
          ConfState.init "testing" "main").state ∧
    ∃ s cfg, (sampleConf [("conf/testing/main.json", [("log.level", "info")])]).readInConfig
        "conf/testing/main.json" "json" = some s ∧
      GetConfigModels (LoadConfig (sampleConf [("conf/testing/main.json",
        [("log.level", "info")])]) ConfState.init "testing" "main").state = some 0 ∧
      (LoadConfig (sampleConf [("conf/testing/main.json",
        [("log.level", "info")])]) ConfState.init "testing" "main").state.deref 0 = some cfg ∧
      GetConfigModels (fileChanged (sampleConf [("conf/testing/main.json",
          [("log.level", "debug")])])
        (LoadConfig (sampleConf [("conf/testing/main.json",
          [("log.level", "info")])]) ConfState.init "testing" "main").state
        ConfState.init.watchers.length) = some 0 ∧
      (fileChanged (sampleConf [("conf/testing/main.json", [("log.level", "debug")])])
        (LoadConfig (sampleConf [("conf/testing/main.json",
          [("log.level", "info")])]) ConfState.init "testing" "main").state
        ConfState.init.watchers.length).deref 0 =
        some ((sampleConf [("conf/testing/main.json", [("log.level", "debug")])]).unmarshal
          (((sampleConf [("conf/testing/main.json", [("log.level", "debug")])]).readInConfig
            "conf/testing/main.json" "json").getD s) cfg).1 :=
  ⟨by decide,
   config_reload_overwrites_shared_object
    (sampleConf [("conf/testing/main.json", [("log.level", "info")])])
    (sampleConf [("conf/testing/main.json", [("log.level", "debug")])])
    ConfState.init "testing" "main" 0 "conf/testing/main.json" "json" _ (by decide)⟩

/-- C10, the claim as stated fails: the pointer obtained from `LoadConfig` before the
change (pointer 0, log level "info") leads to log level "debug" after the change handler
has run, while `GetConfigModels` still returns pointer 0; and after a reload whose
decoding reports an error the object holds the level "error" of the rejected file, not
the previous one. -/
theorem config_snapshot_is_mutated_in_place :
    GetConfigModels (LoadConfig (sampleConf [("conf/testing/main.json",
        [("log.level", "info")])]) ConfState.init "testing" "main").state = some 0 ∧
    levelAt (LoadConfig (sampleConf [("conf/testing/main.json",
        [("log.level", "info")])]) ConfState.init "testing" "main").state 0 = some "info" ∧
    GetConfigModels (fileChanged (sampleConf [("conf/testing/main.json",
          [("log.level", "debug")])])
        (LoadConfig (sampleConf [("conf/testing/main.json",
          [("log.level", "info")])]) ConfState.init "testing" "main").state 0) = some 0 ∧
    levelAt (fileChanged (sampleConf [("conf/testing/main.json", [("log.level", "debug")])])
        (LoadConfig (sampleConf [("conf/testing/main.json",
          [("log.level", "info")])]) ConfState.init "testing" "main").state 0) 0
      = some "debug" ∧
    (sampleUnmarshal [("log.level", "error"), ("system.addr", "oops")] Config.zero).2 = true ∧
    levelAt (fileChanged (sampleConf [("conf/testing/main.json",
          [("log.level", "error"), ("system.addr", "oops")])])
        (LoadConfig (sampleConf [("conf/testing/main.json",
          [("log.level", "info")])]) ConfState.init "testing" "main").state 0) 0
      = some "error" := by
  decide

end Platform

/-! ## Backend connectors and initialization options -/

namespace Server

open Backend

/-- C5, the claim as stated fails: with no configuration file present, `LoadConfig` does
not return an error: it hands `conf/testing/main.ini` to viper and panics, and so does
`NewApiServer`, which returns neither a server nor an error. -/
theorem loadConfig_missing_file_panics_not_error :
    (Platform.LoadConfig (Platform.sampleConf []) Platform.ConfState.init "testing"
      "main").panics = true ∧
    (Platform.LoadConfig (Platform.sampleConf []) Platform.ConfState.init "testing"
      "main").error = none ∧
    (Platform.LoadConfig (Platform.sampleConf []) Platform.ConfState.init "testing"
      "main").file = "conf/testing/main.ini" ∧
    (NewApiServer (sampleBoot [] (sampleDrivers true true true 1)) Proc.init []).panicMsg
      = some "Fatal error config file" := by
  decide

/-- Logging through an existing logger returns and appends the record. -/
theorem logAt_returns (lev : Logger.Level) (msg : String) (w : World) (h : w.logger ≠ none) :
    logAt lev msg w = Res.ret () { w with log := w.log ++ [⟨lev, msg⟩] } := by
  unfold logAt
  cases hl : w.logger with
  | none => exact absurd hl h
  | some l => rfl

/-- The option `WithMysql` returns whatever the driver calls answer, once the logger
exists. -/
theorem withMysql_returns (D : Drivers) (c : Platform.Config) (w : World)
    (h : w.logger ≠ none) : (WithMysql D c w).returns = true := by
  simp only [WithMysql]
  cases hc : Mysql.CreateDatabase D c.Mysql.EmptyDsn.1 "mysql"
      ("CREATE DATABASE IF NOT EXISTS `" ++ c.Mysql.EmptyDsn.2.Dbname ++
        "` DEFAULT CHARACTER SET utf8mb4 ;") <;>
    cases hg : D.gormOpen c.Mysql.EmptyDsn.2.Dsn <;>
    simp [Res.bind, Mysql.Init, hg, logAt_returns, h, Res.returns]

/-- The option `WithRedis` returns whatever the ping answers, once the logger exists. -/
theorem withRedis_returns (D : Drivers) (c : Platform.Config) (w : World)
    (h : w.logger ≠ none) : (WithRedis D c w).returns = true := by
  simp only [WithRedis, Redis.Init]
  cases hp : D.redisPing (D.redisNewClient c.Redis.Addr c.Redis.Password c.Redis.DB) <;>
    simp [logAt_returns, h, Res.returns]

/-- The function `mongo.Init` never returns the dial error: it panics. -/
theorem mongo_init_dial_error_panics (D : Drivers) (w : World)
    (host port dbname user password err : String)
    (hd : D.mgoDial (host ++ ":" ++ port) = Except.error err) :
    (Mongo.Init D w host port dbname user password).returns = false := by
  simp only [Mongo.Init, hd, extLogAt, extLogPanic]
  by_cases hx : w.extLoggerSet = true <;> simp [hx, Res.bind, Res.returns]

/-- The option `WithMongo` does not return when the dial fails. -/
theorem withMongo_dial_error_panics (D : Drivers) (c : Platform.Config) (w : World)
    (err : String) (hd : D.mgoDial (c.Mongo.Host ++ ":" ++ c.Mongo.Port) = Except.error err) :
    (WithMongo D c w).returns = false := by
  have h := mongo_init_dial_error_panics D w c.Mongo.Host c.Mongo.Port c.Mongo.DBname
    c.Mongo.User c.Mongo.Password err hd
  simp only [WithMongo]
  cases hr : Mongo.Init D w c.Mongo.Host c.Mongo.Port c.Mongo.DBname c.Mongo.User
      c.Mongo.Password with
  | ret a w1 => rw [hr] at h; simp [Res.returns] at h
  | panic m w1 => simp [Res.bind, Res.returns]

/-- The function `redis.Init` stores the new client in the slot whatever the ping
answers, and returns the ping error with a nil client. -/
theorem redis_init_always_assigns (D : Drivers) (w : World) (addr password : String)
    (db : Int) :
    (Redis.Init D w addr password db).2.redisClient = some (D.redisNewClient addr password db) ∧
    (Redis.Init D w addr password db).1 =
      (none, D.redisPing (D.redisNewClient addr password db)) := by
  simp [Redis.Init]

/-- The function `mysql.Init` leaves the slot as it was when it returns an error and
stores the new handle when it succeeds. -/
theorem mysql_init_slot (D : Drivers) (w : World) (dsn : String) :
    (∀ err, D.gormOpen dsn = Except.error err →
      (Mysql.Init D w dsn).2 = w ∧ (Mysql.Init D w dsn).1 = (none, some err)) ∧
    (∀ db, D.gormOpen dsn = Except.ok db →
      (Mysql.Init D w dsn).2.mysqlDB = some db ∧ (Mysql.Init D w dsn).1 = (some db, none)) := by
  constructor
  · intro err h; simp [Mysql.Init, h]
  · intro db h; simp [Mysql.Init, h]

/-- With an empty slot and an existing logger, `GetMysqlDB` and `GetRedis` log the
"not initialized" error and return nil, and `GetMongoDB` returns nil and logs nothing. -/
theorem get_on_empty_slot (w : World) (hl : w.logger ≠ none) :
    (w.mysqlDB = none → Mysql.GetMysqlDB w = Res.ret none
      { w with log := w.log ++ [⟨Logger.ErrorLevel, "mysql database is not initialized"⟩] }) ∧
    (w.redisClient = none → Redis.GetRedis w = Res.ret none
      { w with log := w.log ++ [⟨Logger.ErrorLevel, "redis is not initialized"⟩] }) ∧
    (w.mongoDB = none → Mongo.GetMongoDB w = Res.ret none w) := by
  refine ⟨?_, ?_, ?_⟩
  · intro h; simp [Mysql.GetMysqlDB, h, logAt_returns, hl, Res.bind]
  · intro h; simp [Redis.GetRedis, h, logAt_returns, hl, Res.bind]
  · intro h; simp [Mongo.GetMongoDB, h]

/-- The function `mongo.Init` returns only with a nil error and the new session in the
slot; when it panics the slot is as it was. -/
theorem mongo_init_slot (D : Drivers) (w : World) (host port dbname user password : String) :
    (∀ e w1, Mongo.Init D w host port dbname user password = Res.ret e w1 →
      e = none ∧ ∃ s, D.mgoDial (host ++ ":" ++ port) = Except.ok s ∧ w1.mongoDB = some s) ∧
    (∀ m w1, Mongo.Init D w host port dbname user password = Res.panic m w1 →
      w1.mongoDB = w.mongoDB) := by
  constructor
  · intro e w1 h
    simp only [Mongo.Init] at h
    cases hd : D.mgoDial (host ++ ":" ++ port) with
    | error err =>
      rw [hd] at h
      by_cases hx : w.extLoggerSet = true <;>
        simp [extLogAt, extLogPanic, hx, Res.bind] at h
    | ok s =>
      rw [hd] at h
      by_cases hu : user = ""
      · simp only [hu, ne_eq, not_true_eq_false, if_false] at h
        injection h with h1 h2
        subst h1 h2
        exact ⟨rfl, s, rfl, rfl⟩
      · simp only [ne_eq, hu, not_false_eq_true, if_true] at h
        cases hlg : D.mgoLogin s dbname user password with
        | some err =>
          rw [hlg] at h
          by_cases hx : w.extLoggerSet = true <;>
            simp [extLogAt, extLogPanic, hx, Res.bind] at h
        | none =>
          rw [hlg] at h
          injection h with h1 h2
          subst h1 h2
          exact ⟨rfl, s, rfl, rfl⟩
  · intro m w1 h
    simp only [Mongo.Init] at h
    cases hd : D.mgoDial (host ++ ":" ++ port) with
    | error err =>
      rw [hd] at h
      by_cases hx : w.extLoggerSet = true
      · simp [extLogAt, extLogPanic, hx, Res.bind] at h
        rw [← h.2]
      · simp [extLogAt, extLogPanic, hx, Res.bind] at h
        rw [← h.2]
    | ok s =>
      rw [hd] at h
      by_cases hu : user = ""
      · simp [hu] at h
      · simp only [ne_eq, hu, not_false_eq_true, if_true] at h
        cases hlg : D.mgoLogin s dbname user password with
        | some err =>
          rw [hlg] at h
          by_cases hx : w.extLoggerSet = true
          · simp [extLogAt, extLogPanic, hx, Res.bind] at h
            rw [← h.2]
          · simp [extLogAt, extLogPanic, hx, Res.bind] at h
            rw [← h.2]
        | none =>
          rw [hlg] at h
          simp at h

/-- C6, the code at a failing input: with MongoDB unreachable, the option `WithMongo`
panics instead of returning, and `NewApiServer` called with `WithMongo` and `WithRedis`
ends in that panic without returning a server and without applying `WithRedis` (the redis
slot is still nil), whether or not the logger package used by mongo.go has a logger; with
MySQL and Redis unreachable and MongoDB reachable, the three options return and
`NewApiServer` returns a server. -/
theorem newApiServer_mongo_failure_aborts_construction :
    (WithMongo (sampleDrivers true true false 1) Platform.Config.zero loggedWorld).returns
      = false ∧
    (NewApiServer (sampleBoot sampleFiles (sampleDrivers true true false 1)) Proc.init
      [Opt.WithMongo, Opt.WithRedis]).isCreated = false ∧
    (NewApiServer (sampleBoot sampleFiles (sampleDrivers true true false 1)) Proc.init
      [Opt.WithMongo, Opt.WithRedis]).panicMsg = some "nil pointer dereference" ∧
    (NewApiServer (sampleBoot sampleFiles (sampleDrivers true true false 1)) Proc.init
      [Opt.WithMongo, Opt.WithRedis]).proc.map (fun p => p.world.redisClient) = some none ∧
    (NewApiServer (sampleBoot sampleFiles (sampleDrivers true true false 1))
      { Proc.init with world := loggedWorld }
      [Opt.WithMongo, Opt.WithRedis]).panicMsg = some "panic: connect wrong" ∧
    (NewApiServer (sampleBoot sampleFiles (sampleDrivers true true false 1))
      { Proc.init with world := loggedWorld }
      [Opt.WithMongo, Opt.WithRedis]).proc.map (fun p => p.world.redisClient) = some none ∧
    (NewApiServer (sampleBoot sampleFiles (sampleDrivers false false true 1))
      { Proc.init with world := loggedWorld }
      [Opt.WithMysql, Opt.WithRedis, Opt.WithMongo]).isCreated = true := by
  decide

/-- C7, the code at a failing input: after a `redis.Init` that returned an error (the
server does not answer the ping), `GetRedis` returns the client stored by that call, a
non-nil handle, and logs nothing; before any `Init`, `GetRedis` and `GetMysqlDB` log the
"not initialized" error and return nil, as `GetMysqlDB` does after a failed `mysql.Init`,
and `GetMongoDB` returns nil without any report. -/
theorem getRedis_returns_client_after_failed_init :
    (Redis.Init (sampleDrivers true false true 5) loggedWorld "127.0.0.1:6379" "" 0).1
      = (none, some "connection refused") ∧
    Redis.GetRedis
        (Redis.Init (sampleDrivers true false true 5) loggedWorld "127.0.0.1:6379" "" 0).2
      = Res.ret (some 5) { loggedWorld with redisClient := some 5 } ∧
    Redis.GetRedis loggedWorld
      = Res.ret none { loggedWorld with
          log := [⟨Logger.ErrorLevel, "redis is not initialized"⟩] } ∧
    Mysql.GetMysqlDB (Mysql.Init (sampleDrivers false true true 5) loggedWorld "dsn").2
      = Res.ret none { loggedWorld with
          log := [⟨Logger.ErrorLevel, "mysql database is not initialized"⟩] } ∧
    Mongo.GetMongoDB loggedWorld = Res.ret none loggedWorld := by
  decide

/-- C8, the code at a failing input: with handle 1 in the redis slot, a `redis.Init`
whose ping fails returns the error and leaves the new client 2 in the slot; the same
failure of `mysql.Init` leaves handle 1 in the mysql slot, a failing `mongo.Init` leaves
the mongo slot, and a successful `Init` of either stores the new handle. -/
theorem redis_failed_init_replaces_handle :
    (Redis.Init (sampleDrivers true false true 2) { loggedWorld with redisClient := some 1 }
        "127.0.0.1:6379" "" 0).1.2 = some "connection refused" ∧
    (Redis.Init (sampleDrivers true false true 2) { loggedWorld with redisClient := some 1 }
        "127.0.0.1:6379" "" 0).2.redisClient = some 2 ∧
    (Mysql.Init (sampleDrivers false true true 2) { loggedWorld with mysqlDB := some 1 }
        "dsn").1.2 = some "connection refused" ∧
    (Mysql.Init (sampleDrivers false true true 2) { loggedWorld with mysqlDB := some 1 }
        "dsn").2.mysqlDB = some 1 ∧
    (Mysql.Init (sampleDrivers true true true 2) { loggedWorld with mysqlDB := some 1 }
        "dsn").2.mysqlDB = some 2 ∧
    (Mongo.Init (sampleDrivers true true true 2) { loggedWorld with mongoDB := some 1 }
        "127.0.0.1" "27017" "db" "" "").world.mongoDB = some 2 ∧
    (Mongo.Init (sampleDrivers true true false 2) { loggedWorld with mongoDB := some 1 }
        "127.0.0.1" "27017" "db" "" "").world.mongoDB = some 1 := by
  decide

end Server

/-! ## Logger -/

namespace Logger

/-- C9: for every configuration (a nil one stands for the default) and every record
level, the logger built by `Init` has destinations exactly for the tiers info, warn,
error under level "info", warn, error under "warn", error under "error", and debug, info,
warn, error under any other level, each writing to `<Director>/server_<tier>.log`; a
record is written to the files of exactly those wired tiers that accept its level (level
equal to the tier, at least error for the error tier).  In particular under "warn" the
destinations are the warn and the error file and a debug record is written to no file.
The logger is also stored in `_defaultLogger`. -/
theorem init_routes_records_by_level (D : Dirs) (config : Option Log) (lev : Level) :
    wired (Init D config).logger =
        (specTiers (config.getD defaultConfig).Level).map (tierFile (config.getD defaultConfig)) ∧
    written (Init D config).logger lev =
        ((specTiers (config.getD defaultConfig).Level).filter (fun t => specAccepts t lev)).map
          (tierFile (config.getD defaultConfig)) ∧
    (∀ c : Log, wired (Init D (some { c with Level := "warn" })).logger =
        [c.Director ++ "/server_warn.log", c.Director ++ "/server_error.log"] ∧
      written (Init D (some { c with Level := "warn" })).logger DebugLevel = []) ∧
    (Init D config).defaultLogger = some (Init D config).logger := by
  refine ⟨?_, ?_, ?_, rfl⟩
  · cases config with
    | none => simp [Init, wired, buildCores, defaultConfig, specTiers, tierCore, getEncoderCore,
        getWriteSyncer, tierFile]
    | some c =>
      by_cases h1 : c.Level = "info"
      · simp [Init, wired, buildCores, specTiers, tierCore, getEncoderCore, getWriteSyncer,
          tierFile, h1]
      · by_cases h2 : c.Level = "warn"
        · simp [Init, wired, buildCores, specTiers, tierCore, getEncoderCore, getWriteSyncer,
            tierFile, h2]
        · by_cases h3 : c.Level = "error"
          · simp [Init, wired, buildCores, specTiers, tierCore, getEncoderCore, getWriteSyncer,
              tierFile, h3]
          · simp [Init, wired, buildCores, specTiers, tierCore, getEncoderCore, getWriteSyncer,
              tierFile, h1, h2, h3]
  · have hspec : ∀ (c : Log) (tiers : List (String × Priority)),
        (∀ tp ∈ tiers, specAccepts tp.1 lev = tp.2.Enabled lev) →
        written ⟨tiers.map (fun tp => tierCore c tp.1 tp.2), true⟩ lev =
          ((tiers.map (fun tp => tp.1)).filter (fun t => specAccepts t lev)).map (tierFile c) := by
      intro c tiers
      induction tiers with
      | nil => intro _; rfl
      | cons tp rest ih =>
        intro hacc
        have h1 := hacc tp (by simp)
        have h2 := ih (fun x hx => hacc x (by simp [hx]))
        have hl : (tierCore c tp.1 tp.2).level = tp.2 := rfl
        have hf : (tierCore c tp.1 tp.2).writer.Filename = tierFile c tp.1 := rfl
        simp only [written] at h2 ⊢
        by_cases he : tp.2.Enabled lev = true
        · simp only [List.map_cons, List.filter_cons, hl, he, h1, if_true, hf, h2]
        · simp only [List.map_cons, List.filter_cons, hl, he, h1, Bool.false_eq_true, if_false,
            h2]
    have hd : specAccepts "debug" lev = Priority.debugPriority.Enabled lev := by
      simp [specAccepts, Priority.Enabled]
    have hi : specAccepts "info" lev = Priority.infoPriority.Enabled lev := by
      simp [specAccepts, Priority.Enabled]
    have hw : specAccepts "warn" lev = Priority.warnPriority.Enabled lev := by
      simp [specAccepts, Priority.Enabled]
    have he : specAccepts "error" lev = Priority.errorPriority.Enabled lev := by
      simp [specAccepts, Priority.Enabled]
    have hall : ∀ c : Log, written (Init D (some c)).logger lev =
        ((specTiers c.Level).filter (fun t => specAccepts t lev)).map (tierFile c) := by
      intro c
      by_cases h1 : c.Level = "info"
      · have := hspec c [("info", Priority.infoPriority), ("warn", Priority.warnPriority),
          ("error", Priority.errorPriority)] (by simp [hi, hw, he])
        simpa [Init, buildCores, specTiers, h1] using this
      · by_cases h2 : c.Level = "warn"
        · have := hspec c [("warn", Priority.warnPriority), ("error", Priority.errorPriority)]
            (by simp [hw, he])
          simpa [Init, buildCores, specTiers, h2] using this
        · by_cases h3 : c.Level = "error"
          · have := hspec c [("error", Priority.errorPriority)] (by simp [he])
            simpa [Init, buildCores, specTiers, h3] using this
          · have := hspec c [("debug", Priority.debugPriority), ("info", Priority.infoPriority),
              ("warn", Priority.warnPriority), ("error", Priority.errorPriority)]
              (by simp [hd, hi, hw, he])
            simpa [Init, buildCores, specTiers, h1, h2, h3] using this
    cases config with
    | none => exact hall defaultConfig
    | some c => exact hall c
  · intro c
    have e1 : c.Director ++ "/server_" ++ "warn" ++ ".log" = c.Director ++ "/server_warn.log" := by
      rw [String.append_assoc, String.append_assoc]; rfl
    have e2 : c.Director ++ "/server_" ++ "error" ++ ".log" = c.Director ++ "/server_error.log" := by
      rw [String.append_assoc, String.append_assoc]; rfl
    simp [Init, wired, written, buildCores, tierCore, getEncoderCore, getWriteSyncer,
      Priority.Enabled, DebugLevel, WarnLevel, ErrorLevel, e1, e2]

end Logger

/-! ## Logger start-up and the directory of the log files -/

namespace Logger

/-- C11 (as amended): for every configuration and every outcome of the directory
operations, `Init` builds the logger from the configuration alone, returns it and stores it
in `_defaultLogger`; when the directory does not exist it prints the "create" line and
calls `os.Mkdir`, whose result it discards, so the logger is the same whether the directory
was created or not (`Init` has no error result and no failure exit). -/
theorem init_returns_logger_whatever_mkdir_does (D : Dirs) (config : Option Log) :
    (Init D config).logger = ⟨buildCores (config.getD defaultConfig), true⟩ ∧
    (Init D config).defaultLogger = some (Init D config).logger ∧
    (∀ D2 : Dirs, (Init D2 config).logger = (Init D config).logger) ∧
    (D.Exists (config.getD defaultConfig).Director = false →
      (Init D config).mkdir = some ((config.getD defaultConfig).Director,
        D.Mkdir (config.getD defaultConfig).Director) ∧
      (Init D config).stdout =
        ["create " ++ (config.getD defaultConfig).Director ++ " directory"]) ∧
    (D.Exists (config.getD defaultConfig).Director = true →
      (Init D config).mkdir = none ∧ (Init D config).stdout = []) := by
  cases config with
  | none =>
    refine ⟨rfl, rfl, fun _ => rfl, ?_, ?_⟩
    · intro h
      simp only [Option.getD] at h
      simp [Init, h]
    · intro h
      simp only [Option.getD] at h
      simp [Init, h]
  | some c =>
    refine ⟨rfl, rfl, fun _ => rfl, ?_, ?_⟩
    · intro h
      simp only [Option.getD] at h
      simp [Init, h]
    · intro h
      simp only [Option.getD] at h
      simp [Init, h]

/-- C11, an instance: the default configuration, the directory `logs` missing and
`os.Mkdir` failing. -/
theorem init_returns_logger_witness :
    dirsFailing.Exists (Option.getD none defaultConfig).Director = false ∧
    (Init dirsFailing none).mkdir = some ("logs", false) ∧
    (Init dirsFailing none).stdout = ["create logs directory"] ∧
    (Init dirsFailing none).logger = (Init dirsPresent none).logger :=
  have h := init_returns_logger_whatever_mkdir_does dirsFailing none
  ⟨rfl, (h.2.2.2.1 rfl).1.trans (by decide), (h.2.2.2.1 rfl).2.trans (by decide),
   (h.2.2.1 dirsPresent).symm⟩

end Logger

namespace Server

open Backend

/-- C11, the claim as stated fails: with the log directory missing and `os.Mkdir`
failing, `Init` reports nothing but the "create" line and returns and stores the very
logger it returns when the directory is in place; `NewApiServer` goes on and returns a
server with that logger installed. -/
theorem init_mkdir_failure_is_ignored :
    (Logger.Init Logger.dirsFailing none).mkdir = some ("logs", false) ∧
    (Logger.Init Logger.dirsFailing none).stdout = ["create logs directory"] ∧
    (Logger.Init Logger.dirsFailing none).logger =
      (Logger.Init Logger.dirsPresent none).logger ∧
    (Logger.Init Logger.dirsFailing none).defaultLogger =
      some (Logger.Init Logger.dirsPresent none).logger ∧
    (NewApiServer { sampleBoot sampleFiles (sampleDrivers true true true 1) with
        dirs := Logger.dirsFailing } Proc.init []).isCreated = true ∧
    (NewApiServer { sampleBoot sampleFiles (sampleDrivers true true true 1) with
        dirs := Logger.dirsFailing } Proc.init []).proc.map
          (fun p => p.world.logger.isSome) = some true := by
  decide

end Server
/-! ## Shutdown and the `HttpServer` field -/

namespace Server

open Backend

/-- A server returned by `NewApiServer` has a nil `HttpServer` and empty registries. -/
theorem newApiServer_server (B : BootEnv) (p : Proc) (opts : List Opt) (srv : ApiServer)
    (h : (NewApiServer B p opts).server = some srv) :
    srv.HttpServer = none ∧ srv.Shutdowns = [] := by
  unfold NewApiServer at h
  split at h
  · simp [NewResult.server] at h
  · simp [NewResult.server] at h
  · split at h
    · simp [NewResult.server] at h
    · simp only at h
      split at h
      · simp [NewResult.server] at h
      · split at h
        · simp [NewResult.server] at h
        · simp [NewResult.server] at h
        · split at h
          · simp [NewResult.server] at h
          · split at h
            · simp [NewResult.server] at h
            · simp only [NewResult.server, Option.some.injEq] at h
              subst h
              exact ⟨rfl, rfl⟩

/-- A call of `ListenAndServe` that does not panic leaves the `HttpServer` field set. -/
theorem listenAndServe_sets_httpServer (H : Hooks) (E : ServeEnv) (srv : ApiServer)
    (h : (ListenAndServe H E srv).run.panicked = none) :
    (ListenAndServe H E srv).run.srv.HttpServer ≠ none := by
  generalize hr1 : runSrvHooks H Event.service srv.Services
    { srv with Engine := some newEngine } [] = r1
  generalize hr2 : runEngHooks H Event.middleware r1.srv.Middlewares r1.srv r1.trace = r2
  generalize hr3 : runEngHooks H Event.router r2.srv.Routers r2.srv r2.trace = r3
  unfold ListenAndServe at h ⊢
  simp only [hr1] at h ⊢
  cases hp1 : r1.panicked with
  | some p => simp [hp1] at h
  | none =>
    simp only [hp1, hr2] at h ⊢
    cases hp2 : r2.panicked with
    | some p => simp [hp2] at h
    | none =>
      simp only [hp2, hr3] at h ⊢
      cases hp3 : r3.panicked with
      | some p => simp [hp3] at h
      | none =>
        simp only [hp3] at h ⊢
        by_cases hl : E.loggerSet = true
        · simp only [hl, if_true]
          cases E.listen (mkHttpServer r3.srv) <;> simp
        · simp [hl] at h

/-- C12 (as amended): for every server and every behaviour of the hooks, (1) when the
registered shutdown hooks return and leave the slots of the running loop alone, `Shutdown`
runs every hook, in order, and the wait, then reaches `srv.HttpServer.Shutdown`, and it
completes if and only if the `HttpServer` field, as the hooks leave it, is set, and ends
in the nil dereference if and only if that field is nil; `Shutdown` itself changes nothing
on the server; (2) when the hooks also leave the field alone, `Shutdown` completes if and
only if the field of the server it is called on is set, and ends in the nil dereference if
and only if it is nil; (3) when the hooks before some hook return and that hook panics,
`Shutdown` ends at that hook, whatever the field holds, without reaching
`srv.HttpServer.Shutdown`; (4) of the functions of api.go, `NewApiServer` returns a server
with a nil field, the registration calls and `getDoneChan` leave the field alone, and a call
of `ListenAndServe` that does not panic leaves it set; (5) on a server returned by
`NewApiServer`, after any registration calls, with hooks that return, leave the slots
alone and leave the field alone, `Shutdown` runs every registered shutdown hook, in
order, and the wait, and then fails at `srv.HttpServer.Shutdown`. -/
theorem shutdown_completes_iff_httpServer_set (H : Hooks) (srv : ApiServer) :
    ((∀ h ∈ srv.Shutdowns, Returns H.srv h) →
      (Shutdown H srv).trace = srv.Shutdowns.map Event.shutdownHook ++
        [Event.graceWait shutdownWait, Event.httpShutdown] ∧
      ((Shutdown H srv).panicked = none ↔
        (afterHooks H.srv srv.Shutdowns srv).HttpServer ≠ none) ∧
      ((Shutdown H srv).panicked = some Panic.nilHttpServer ↔
        (afterHooks H.srv srv.Shutdowns srv).HttpServer = none) ∧
      (Shutdown H srv).srv = afterHooks H.srv srv.Shutdowns srv) ∧
    ((∀ h ∈ srv.Shutdowns, Returns H.srv h ∧ Keeps (fun s => s.HttpServer) H.srv h) →
      ((Shutdown H srv).panicked = none ↔ srv.HttpServer ≠ none) ∧
      ((Shutdown H srv).panicked = some Panic.nilHttpServer ↔ srv.HttpServer = none)) ∧
    (∀ (pre : List HookId) (h : HookId) (post : List HookId),
      srv.Shutdowns = pre ++ h :: post →
      (∀ x ∈ pre, Returns H.srv x) → AlwaysPanics H.srv h →
      (Shutdown H srv).trace = (pre ++ [h]).map Event.shutdownHook ∧
      (Shutdown H srv).panicked = some (Panic.hook h)) ∧
    ((∀ (B : BootEnv) (p : Proc) (opts : List Opt) (srv0 : ApiServer),
        (NewApiServer B p opts).server = some srv0 → srv0.HttpServer = none) ∧
      (∀ regs : List Registration, (regs.foldl register srv).HttpServer = srv.HttpServer) ∧
      (getDoneChan srv).2.HttpServer = srv.HttpServer ∧
      (∀ E : ServeEnv, (ListenAndServe H E srv).run.panicked = none →
        (ListenAndServe H E srv).run.srv.HttpServer ≠ none)) ∧
    (∀ (B : BootEnv) (p : Proc) (opts : List Opt) (srv0 : ApiServer)
        (regs : List Registration),
      (NewApiServer B p opts).server = some srv0 →
      (∀ h ∈ shutdownsOf regs, Returns H.srv h ∧ Keeps (fun s => s.HttpServer) H.srv h) →
      (Shutdown H (regs.foldl register srv0)).trace =
          (shutdownsOf regs).map Event.shutdownHook ++
            [Event.graceWait shutdownWait, Event.httpShutdown] ∧
        (Shutdown H (regs.foldl register srv0)).panicked = some Panic.nilHttpServer) := by
  have hiff : ∀ o : Option HTTPServer,
      ((if o = none then some Panic.nilHttpServer else none) = none ↔ o ≠ none) ∧
      ((if o = none then some Panic.nilHttpServer else none) = some Panic.nilHttpServer ↔
        o = none) := by
    intro o
    cases o <;> simp
  refine ⟨?_, ?_, ?_, ⟨?_, ?_, ?_, ?_⟩, ?_⟩
  · intro hret
    have h1 := shutdown_of_returning H srv hret
    refine ⟨h1.1, ?_, ?_, h1.2.2⟩
    · rw [h1.2.1]; exact (hiff _).1
    · rw [h1.2.1]; exact (hiff _).2
  · intro hh
    have h1 := shutdown_of_returning H srv (fun h hm => (hh h hm).1)
    have hk := afterHooks_keep (fun s => s.HttpServer) H.srv srv.Shutdowns srv
      (fun h hm => (hh h hm).2)
    simp only at hk
    rw [h1.2.1, hk]
    exact hiff _
  · intro pre h post hsplit hpre hp
    exact shutdown_of_panicking H srv pre h post hsplit hpre hp
  · intro B p opts srv0 h
    exact (newApiServer_server B p opts srv0 h).1
  · intro regs
    exact (register_foldl regs srv).2.2.2.2.2
  · unfold getDoneChan getDoneChanLocked
    cases srv.doneChan <;> rfl
  · intro E h
    exact listenAndServe_sets_httpServer H E srv h
  · intro B p opts srv0 regs hnew hhooks
    have h0 := newApiServer_server B p opts srv0 hnew
    have hreg := register_foldl regs srv0
    have hsd : (regs.foldl register srv0).Shutdowns = shutdownsOf regs := by
      rw [hreg.2.2.2.1, h0.2]; simp
    have h1 := shutdown_of_returning H (regs.foldl register srv0)
      (by rw [hsd]; exact fun h hm => (hhooks h hm).1)
    have hk := afterHooks_keep (fun s => s.HttpServer) H.srv
      (regs.foldl register srv0).Shutdowns (regs.foldl register srv0)
      (by rw [hsd]; exact fun h hm => (hhooks h hm).2)
    simp only at hk
    refine ⟨by rw [h1.1, hsd], ?_⟩
    rw [h1.2.1, hk, hreg.2.2.2.2.2, h0.1]
    rfl

/-- C12, an instance: on the server `NewApiServer` returns for the sample deployment,
after the sample registration calls (one shutdown hook, 9), `Shutdown` runs the hook and
the wait and ends in the nil dereference; on a server on which `ListenAndServe` has set
`HttpServer`, with the same hook registered, it completes. -/
theorem shutdown_completes_iff_httpServer_set_witness :
    (((NewApiServer (sampleBoot sampleFiles (sampleDrivers true true true 1)) Proc.init
          []).server = some { bareServer with Addr := ":0" } ∧
        (∀ h ∈ shutdownsOf sampleRegs,
          Returns quietHooks.srv h ∧ Keeps (fun s => s.HttpServer) quietHooks.srv h)) ∧
      (Shutdown quietHooks (sampleRegs.foldl register
          { bareServer with Addr := ":0" })).trace =
        [Event.shutdownHook 9, Event.graceWait 1000, Event.httpShutdown] ∧
      (Shutdown quietHooks (sampleRegs.foldl register
          { bareServer with Addr := ":0" })).panicked = some Panic.nilHttpServer) ∧
    (((∀ h ∈ (RegisterShutdown servingServer [9]).Shutdowns,
          Returns quietHooks.srv h ∧ Keeps (fun s => s.HttpServer) quietHooks.srv h) ∧
        (RegisterShutdown servingServer [9]).HttpServer ≠ none) ∧
      (Shutdown quietHooks (RegisterShutdown servingServer [9])).panicked = none) :=
  ⟨⟨⟨by decide, fun _ _ => ⟨fun _ _ => ⟨rfl, rfl⟩, fun _ _ => rfl⟩⟩,
    (shutdown_completes_iff_httpServer_set quietHooks bareServer).2.2.2.2
      (sampleBoot sampleFiles (sampleDrivers true true true 1)) Proc.init []
      { bareServer with Addr := ":0" } sampleRegs (by decide)
      (fun _ _ => ⟨fun _ _ => ⟨rfl, rfl⟩, fun _ _ => rfl⟩)⟩,
   ⟨fun _ _ => ⟨fun _ _ => ⟨rfl, rfl⟩, fun _ _ => rfl⟩, by decide⟩,
   ((shutdown_completes_iff_httpServer_set quietHooks
      (RegisterShutdown servingServer [9])).2.1
      (fun _ _ => ⟨fun _ _ => ⟨rfl, rfl⟩, fun _ _ => rfl⟩)).1.mpr (by decide)⟩

/-- C12, the claim as stated fails, both ways.  On a server whose `HttpServer` is set, with
the shutdown hook 9 registered and panicking, `Shutdown` does not complete: it ends at the
hook, before the wait and the listener-close step.  On the server `NewApiServer` returns
for the sample deployment, on which `ListenAndServe` has never run, with the shutdown hook
9 registered and assigning `srv.HttpServer`, `Shutdown` does not fail at
`srv.HttpServer.Shutdown`: it completes, and the field has been set outside
`ListenAndServe`. -/
theorem shutdown_outcome_depends_on_hooks :
    ((RegisterShutdown servingServer [9]).HttpServer ≠ none ∧
      (Shutdown (panicAt 9) (RegisterShutdown servingServer [9])).trace =
        [Event.shutdownHook 9] ∧
      (Shutdown (panicAt 9) (RegisterShutdown servingServer [9])).panicked =
        some (Panic.hook 9)) ∧
    ((NewApiServer (sampleBoot sampleFiles (sampleDrivers true true true 1)) Proc.init
          []).server = some { bareServer with Addr := ":0" } ∧
      (RegisterShutdown { bareServer with Addr := ":0" } [9]).HttpServer = none ∧
      (Shutdown (assignHttpAt 9) (RegisterShutdown { bareServer with Addr := ":0" } [9])).trace =
        [Event.shutdownHook 9, Event.graceWait 1000, Event.httpShutdown] ∧
      (Shutdown (assignHttpAt 9)
        (RegisterShutdown { bareServer with Addr := ":0" } [9])).panicked = none ∧
      (Shutdown (assignHttpAt 9)
        (RegisterShutdown { bareServer with Addr := ":0" } [9])).srv.HttpServer ≠ none) := by
  decide

end Server
